import Mathlib

/-!
ContextCaddy: message routing, selection state and length validation.

A shallow embedding of the parts of the ContextCaddy browser extension that
decide which text reaches a cabinet:

* `background.js`: the context-menu click listener and the runtime message
  listener of the service worker;
* `sidepanel.js`: the `ContextCaddy` panel class (settings, cabinet selection,
  drop handling, message handling, `addTextToCabinet`, `createCabinet`,
  `deleteCabinet`, the score shown by `displaySearchResults`);
* `content.js`: the selection tracker (`mouseup`, `dragstart`, `dragend`);
* `config.js`: `ApiClient.request` and `CacheManager._cleanup`.

Conventions of the embedding.

* JavaScript strings are Lean strings; `jsLength` is the `.length` of the
  source (UTF-16 code units).
* JavaScript numbers that occur here are results of `parseInt` or integer
  literals; they are modelled by `JSNum` (an exact integer or `NaN`).  The
  model coincides with IEEE doubles on the safe integer range.  For the scores
  of search results a finite double is given by its exact value, and the
  operations that round (`x * 100`, `toFixed(1)`) are parameters (`DoubleOps`).
* `undefined` / `null` / a missing storage key are `none`.
* Listeners return the list of externally visible effects in program order.
  Browser API calls (`chrome.storage`, `chrome.sidePanel.open`,
  `chrome.runtime.sendMessage`) are assumed to succeed; the replies of the
  cabinet server are explicit arguments.
-/

namespace ContextCaddy

/-! ## JavaScript primitives -/

/-- Number of UTF-16 code units of a list of code points. -/
def utf16Units : List Char → Nat
  | [] => 0
  | c :: cs => (if c.toNat < 65536 then 1 else 2) + utf16Units cs

/-- The `.length` property of a JavaScript string. -/
def jsLength (s : String) : Nat := utf16Units s.data

/-- Numbers as they occur in the extension: an integer or `NaN`. -/
inductive JSNum where
  | nan
  | int (n : Int)
  deriving DecidableEq

/-- Truthiness of a number: `NaN` and `0` are falsy. -/
def JSNum.truthy : JSNum → Bool
  | .nan => false
  | .int n => n != 0

/-- Number to string conversion as used by template literals. -/
def JSNum.toJSString : JSNum → String
  | .nan => "NaN"
  | .int n => toString n

/-- The comparison `a < b`; any comparison with `NaN` is false. -/
def JSNum.lt : JSNum → JSNum → Bool
  | .int a, .int b => decide (a < b)
  | _, _ => false

/-- The comparison `a > b`. -/
def JSNum.gt (a b : JSNum) : Bool := JSNum.lt b a

/-- The comparison `a >= b`; any comparison with `NaN` is false. -/
def JSNum.ge : JSNum → JSNum → Bool
  | .int a, .int b => decide (a ≥ b)
  | _, _ => false

/-- The expression `v || d` for a stored number `v` (possibly missing) and a
non-zero literal default `d`: the result is `v` when `v` is truthy and `d`
otherwise, so it is always an integer. -/
def orDefault (v : Option JSNum) (d : Int) : Int :=
  match v with
  | some (.int n) => if n = 0 then d else n
  | _ => d

/-- Truthiness of an optional string: `undefined`, `null` and `""` are falsy. -/
def truthyStr : Option String → Bool
  | some s => s != ""
  | none => false

/-! ## `chrome.storage.local` -/

/-- The keys of `chrome.storage.local` used by the extension. -/
structure Storage where
  selectedCabinet : Option String
  minTextLength : Option JSNum
  maxTextLength : Option JSNum
  deriving DecidableEq

/-! ## Messages between the contexts -/

/-- Messages sent with `chrome.runtime.sendMessage`, by their `type` field. -/
inductive Message where
  | SHOW_CABINET_PROMPT (text : Option String) (sourceUrl : Option String)
  | SHOW_ERROR (message : String)
  | ADD_TEXT_TO_CABINET (cabinet : String) (text : String) (sourceUrl : Option String)
  | PROCESS_DRAGGED_TEXT (text : Option String) (sourceUrl : String)
  | DRAG_DROP_TEXT (text : Option String)
  deriving DecidableEq

/-- Is the message an `ADD_TEXT_TO_CABINET`? -/
def Message.isAdd : Message → Bool
  | .ADD_TEXT_TO_CABINET _ _ _ => true
  | _ => false

/-- Is the message a `SHOW_CABINET_PROMPT`? -/
def Message.isPrompt : Message → Bool
  | .SHOW_CABINET_PROMPT _ _ => true
  | _ => false

/-- Is the message a `SHOW_ERROR`? -/
def Message.isError : Message → Bool
  | .SHOW_ERROR _ => true
  | _ => false

/-! ## background.js -/

/-- The fields of the `info` argument of a context-menu click. -/
structure OnClickData where
  menuItemId : String
  selectionText : Option String
  deriving DecidableEq

/-- The fields of a tab that the worker reads. -/
structure Tab where
  id : Int
  url : Option String
  deriving DecidableEq

/-- Effects of the service worker, in program order. -/
inductive Effect where
  | sidePanelOpen (tabId : Int)
  | sendMessage (m : Message)
  | sendMessageAfter (delay : Nat) (m : Message)
  | typeError
  deriving DecidableEq

/-- The message carried by an effect, if it sends one (now or after a delay). -/
def Effect.message : Effect → Option Message
  | .sendMessage m => some m
  | .sendMessageAfter _ m => some m
  | _ => none

/-- All messages sent by a list of effects. -/
def sentMessages (es : List Effect) : List Message := es.filterMap Effect.message

/-- The constant `minLength` of the click listener: `settings.minTextLength || 10`. -/
def minLength (settings : Storage) : Int := orDefault settings.minTextLength 10

/-- The constant `maxLength` of the click listener: `settings.maxTextLength || 5000`. -/
def maxLength (settings : Storage) : Int := orDefault settings.maxTextLength 5000

/-- Text of the worker's too-short error. -/
def tooShortMessage (minLength : Int) : String :=
  "Selected text is too short (minimum " ++ toString minLength ++ " characters)"

/-- Text of the worker's too-long error. -/
def tooLongMessage (maxLength : Int) : String :=
  "Selected text is too long (maximum " ++ toString maxLength ++ " characters)"

/-- The listener of `chrome.contextMenus.onClicked`.  Reading `.length` of a
missing `selectionText` raises a `TypeError`, which ends the listener. -/
def contextMenusOnClicked (storage : Storage) (info : OnClickData) (tab : Tab) : List Effect :=
  if info.menuItemId = "add-to-cabinet" then
    match storage.selectedCabinet with
    | none =>
        [.sidePanelOpen tab.id,
         .sendMessageAfter 500 (.SHOW_CABINET_PROMPT info.selectionText tab.url)]
    | some selectedCabinet =>
        if selectedCabinet = "" then
          [.sidePanelOpen tab.id,
           .sendMessageAfter 500 (.SHOW_CABINET_PROMPT info.selectionText tab.url)]
        else
          match info.selectionText with
          | none => [.typeError]
          | some selectionText =>
              if (jsLength selectionText : Int) < minLength storage then
                [.sendMessage (.SHOW_ERROR (tooShortMessage (minLength storage)))]
              else if (jsLength selectionText : Int) > maxLength storage then
                [.sendMessage (.SHOW_ERROR (tooLongMessage (maxLength storage)))]
              else
                [.sendMessage (.ADD_TEXT_TO_CABINET selectedCabinet selectionText tab.url),
                 .sidePanelOpen tab.id]
  else []

/-- The runtime message listener of the worker: a `DRAG_DROP_TEXT` message is
forwarded as `PROCESS_DRAGGED_TEXT` with `sender.tab?.url || 'unknown'`. -/
def runtimeOnMessage (message : Message) (senderTab : Option Tab) : List Effect :=
  match message with
  | .DRAG_DROP_TEXT text =>
      [.sendMessage (.PROCESS_DRAGGED_TEXT text
        (match senderTab with
         | some tab => if truthyStr tab.url then tab.url.getD "unknown" else "unknown"
         | none => "unknown"))]
  | _ => []

/-! ## sidepanel.js: primitives -/

/-- White space and line terminators removed by `String.prototype.trim` and
skipped by `parseInt`. -/
def isJSWhiteSpace (c : Char) : Bool :=
  let n := c.toNat
  n == 9 || n == 10 || n == 11 || n == 12 || n == 13 || n == 32 || n == 160 ||
  n == 5760 || (8192 ≤ n && n ≤ 8202) || n == 8232 || n == 8233 || n == 8239 ||
  n == 8287 || n == 12288 || n == 65279

/-- The method `String.prototype.trim`, on code points. -/
def jsTrim (s : String) : String :=
  ⟨((s.data.dropWhile isJSWhiteSpace).reverse.dropWhile isJSWhiteSpace).reverse⟩

/-- Value of a character as a digit (any radix up to 36). -/
def digitValue (c : Char) : Option Nat :=
  let n := c.toNat
  if 48 ≤ n ∧ n ≤ 57 then some (n - 48)
  else if 97 ≤ n ∧ n ≤ 122 then some (n - 87)
  else if 65 ≤ n ∧ n ≤ 90 then some (n - 55)
  else none

/-- Reads the longest prefix of radix-`r` digits: the number of digits read and
their value. -/
def readDigits (r : Nat) : List Char → Nat → Nat → Nat × Nat
  | [], count, acc => (count, acc)
  | c :: cs, count, acc =>
      match digitValue c with
      | some d => if d < r then readDigits r cs (count + 1) (acc * r + d) else (count, acc)
      | none => (count, acc)

/-- The function `parseInt(string)` without a radix argument: leading white
space is skipped, then an optional sign and an optional `0x` prefix, then the
longest run of digits; `NaN` when there is no digit. -/
def parseInt (s : String) : JSNum :=
  let s1 := s.data.dropWhile isJSWhiteSpace
  let signed : Int × List Char :=
    match s1 with
    | '-' :: rest => (-1, rest)
    | '+' :: rest => (1, rest)
    | _ => (1, s1)
  let based : Nat × List Char :=
    match signed.2 with
    | '0' :: 'x' :: rest => (16, rest)
    | '0' :: 'X' :: rest => (16, rest)
    | _ => (10, signed.2)
  let z := readDigits based.1 based.2 0 0
  if z.1 = 0 then .nan else .int (signed.1 * (z.2 : Int))

/-! ## sidepanel.js: the `ContextCaddy` class -/

/-- The object `this.settings`. -/
structure Settings where
  minTextLength : JSNum
  maxTextLength : JSNum
  deriving DecidableEq

/-- The second argument of `showMessage`. -/
inductive MessageType where
  | info
  | error
  | success
  deriving DecidableEq

/-- Requests to the cabinet server issued with `fetch`. -/
inductive Request where
  | health
  | listCabinets
  | createCabinet (cabinet_name : String)
  | deleteCabinet (cabinet_name : String)
  | addToCabinet (cabinet_name : String) (text : String) (source_url : String)
  deriving DecidableEq

/-- What the panel reads from a server reply: `response.ok`, the truthiness of
`data.message` and of `data.success`, and the names in `data.cabinets || []`. -/
structure Reply where
  ok : Bool
  message : Bool
  success : Bool
  cabinets : List String
  deriving DecidableEq

/-- Observable actions of the panel, oldest first in `Panel.log`.
`addTextToCabinetCalled` is a trace marker written on entry to
`addTextToCabinet`; it records the three arguments of the call. -/
inductive PanelEffect where
  | showMessage (message : String) (type : MessageType)
  | fetch (r : Request)
  | addTextToCabinetCalled (text : String) (sourceUrl : Option String)
      (cabinetName : Option String)
  deriving DecidableEq

/-- Is the effect a network request? -/
def PanelEffect.isFetch : PanelEffect → Bool
  | .fetch _ => true
  | _ => false

/-- Is the effect an error shown to the user? -/
def PanelEffect.isErrorMessage : PanelEffect → Bool
  | .showMessage _ .error => true
  | _ => false

/-- Is the effect an invocation of `addTextToCabinet` with this text? -/
def PanelEffect.isAddCall (text : String) : PanelEffect → Bool
  | .addTextToCabinetCalled t _ _ => t == text
  | _ => false

/-- Is the effect an add request for this text? -/
def PanelEffect.isAddRequest (text : String) : PanelEffect → Bool
  | .fetch (.addToCabinet _ t _) => t == text
  | _ => false

/-- State of a panel instance together with the `chrome.storage.local` it
shares with the worker.  `timers` holds the due times (ms) of the pending
`setTimeout` callbacks that reset `dropProcessedRecently`. -/
structure Panel where
  selectedCabinet : Option String
  cabinets : List String
  dropProcessedRecently : Bool
  settings : Settings
  storage : Storage
  timers : List Nat
  log : List PanelEffect
  deriving DecidableEq

/-- The state set up by the constructor, over a given storage. -/
def Panel.new (storage : Storage) : Panel :=
  { selectedCabinet := none
    cabinets := []
    dropProcessedRecently := false
    settings := ⟨.int 10, .int 5000⟩
    storage := storage
    timers := []
    log := [] }

/-- The method `showMessage(message, type)`. -/
def showMessage (message : String) (type : MessageType) (p : Panel) : Panel :=
  { p with log := p.log ++ [.showMessage message type] }

/-- The method `loadSettings()`. -/
def loadSettings (p : Panel) : Panel :=
  { p with settings :=
      ⟨.int (orDefault p.storage.minTextLength 10), .int (orDefault p.storage.maxTextLength 5000)⟩ }

/-- The method `loadSelectedCabinet()`: the stored value is read and then
discarded, and the key is removed. -/
def loadSelectedCabinet (p : Panel) : Panel :=
  { p with selectedCabinet := none
           storage := { p.storage with selectedCabinet := none } }

/-- The method `loadCabinets()`; `reply` is the outcome of the request
(`none` when `fetch` or the JSON decoding fails). -/
def loadCabinets (reply : Option Reply) (p : Panel) : Panel :=
  let p1 := { p with log := p.log ++ [.fetch .listCabinets] }
  match reply with
  | some r =>
      if r.success then { p1 with cabinets := r.cabinets }
      else showMessage "Cannot connect to MCP-Cabinets Server" .error p1
  | none => showMessage "Cannot connect to MCP-Cabinets Server" .error p1

/-- The method `checkServerConnection()`: it requests `/health` and only
updates the status bar. -/
def checkServerConnection (p : Panel) : Panel :=
  { p with log := p.log ++ [.fetch .health] }

/-- The method `init()`; the listeners it registers are `onDrop`, `onMessage`
and the button handlers below. -/
def init (listReply : Option Reply) (p : Panel) : Panel :=
  loadCabinets listReply (checkServerConnection (loadSelectedCabinet (loadSettings p)))

/-- The method `selectCabinet(cabinetName)`. -/
def selectCabinet (cabinetName : String) (p : Panel) : Panel :=
  { p with selectedCabinet := some cabinetName
           storage := { p.storage with selectedCabinet := some cabinetName } }

/-- The method `saveSettings()`; the arguments are the contents of the input
fields `minLength` and `maxLength`. -/
def saveSettings (minValue maxValue : String) (p : Panel) : Panel :=
  let minLength := parseInt minValue
  let maxLength := parseInt maxValue
  if JSNum.ge minLength maxLength then
    showMessage "Min length must be less than max length" .error p
  else
    showMessage "Settings saved successfully" .success
      { p with settings := ⟨minLength, maxLength⟩
               storage := { p.storage with minTextLength := some minLength
                                           maxTextLength := some maxLength } }

/-- The method `createCabinet()`; `value` is the content of the name field. -/
def createCabinet (value : String) (createReply listReply : Option Reply) (p : Panel) : Panel :=
  let cabinetName := jsTrim value
  if cabinetName = "" then
    showMessage "Please enter a cabinet name" .error p
  else if jsLength cabinetName > 100 then
    showMessage "Cabinet name must be 100 characters or less" .error p
  else
    let p1 := { p with log := p.log ++ [.fetch (.createCabinet cabinetName)] }
    match createReply with
    | some r =>
        if r.ok && r.message then
          selectCabinet cabinetName
            (loadCabinets listReply
              (showMessage ("Created cabinet \"" ++ cabinetName ++ "\"") .success p1))
        else showMessage "Failed to create cabinet" .error p1
    | none => showMessage "Failed to create cabinet" .error p1

/-- The method `deleteCabinet()`; `confirmed` is the answer to `confirm(...)`. -/
def deleteCabinet (confirmed : Bool) (deleteReply listReply : Option Reply) (p : Panel) : Panel :=
  match p.selectedCabinet with
  | none => p
  | some selected =>
      if selected = "" then p
      else if !confirmed then p
      else
        let p1 := { p with log := p.log ++ [.fetch (.deleteCabinet selected)] }
        match deleteReply with
        | some r =>
            if r.ok && r.message then
              loadCabinets listReply
                { showMessage ("Deleted cabinet \"" ++ selected ++ "\"") .success p1 with
                  selectedCabinet := none
                  storage := { p1.storage with selectedCabinet := none } }
            else showMessage "Failed to delete cabinet" .error p1
        | none => showMessage "Failed to delete cabinet" .error p1

/-- Text of the panel's too-short error. -/
def textTooShort (min : JSNum) : String := "Text too short (min " ++ min.toJSString ++ " chars)"

/-- Text of the panel's too-long error. -/
def textTooLong (max : JSNum) : String := "Text too long (max " ++ max.toJSString ++ " chars)"

/-- The method `addTextToCabinet(text, sourceUrl = 'unknown', cabinetName = null)`. -/
def addTextToCabinet (text : String) (sourceUrl cabinetName : Option String)
    (addReply listReply : Option Reply) (p : Panel) : Panel :=
  let p0 := { p with log := p.log ++ [.addTextToCabinetCalled text sourceUrl cabinetName] }
  let targetCabinet := if truthyStr cabinetName then cabinetName else p0.selectedCabinet
  match targetCabinet with
  | none => showMessage "No cabinet selected" .error p0
  | some target =>
      if target = "" then showMessage "No cabinet selected" .error p0
      else if JSNum.lt (.int (jsLength text)) p0.settings.minTextLength then
        showMessage (textTooShort p0.settings.minTextLength) .error p0
      else if JSNum.gt (.int (jsLength text)) p0.settings.maxTextLength then
        showMessage (textTooLong p0.settings.maxTextLength) .error p0
      else
        let p1 := { p0 with log := p0.log ++
          [.fetch (.addToCabinet target text (sourceUrl.getD "unknown"))] }
        match addReply with
        | some r =>
            if r.ok && r.message then
              loadCabinets listReply
                (showMessage ("Added text to \"" ++ target ++ "\"") .success p1)
            else showMessage "Failed to add text to cabinet" .error p1
        | none => showMessage "Failed to add text to cabinet" .error p1

/-- Runs the timer callbacks due at time `now`: each resets
`dropProcessedRecently`. -/
def fireTimers (now : Nat) (p : Panel) : Panel :=
  if p.timers.any (fun due => decide (due ≤ now)) then
    { p with dropProcessedRecently := false
             timers := p.timers.filter (fun due => !decide (due ≤ now)) }
  else p

/-- The `drop` listener of the drop zone at time `now`; `data` is
`e.dataTransfer.getData('text/plain')` (the empty string when there is none). -/
def onDrop (now : Nat) (data : String) (addReply listReply : Option Reply) (p : Panel) : Panel :=
  if !truthyStr p.selectedCabinet then
    showMessage "Please select a cabinet first" .error p
  else if data = "" then p
  else
    addTextToCabinet data (some "Drag & Drop") none addReply listReply
      { p with dropProcessedRecently := true
               timers := p.timers ++ [now + 500] }

/-- The listener registered by `setupMessageListener()`. -/
def onMessage (message : Message) (addReply listReply : Option Reply) (p : Panel) : Panel :=
  match message with
  | .ADD_TEXT_TO_CABINET cabinet text sourceUrl =>
      addTextToCabinet text sourceUrl (some cabinet) addReply listReply p
  | .PROCESS_DRAGGED_TEXT text sourceUrl =>
      if p.dropProcessedRecently then p
      else
        match text with
        | some t =>
            if truthyStr p.selectedCabinet && t != "" then
              addTextToCabinet t (some sourceUrl) none addReply listReply p
            else if !truthyStr p.selectedCabinet then
              showMessage "Please select a cabinet first" .error p
            else p
        | none =>
            if !truthyStr p.selectedCabinet then
              showMessage "Please select a cabinet first" .error p
            else p
  | .SHOW_CABINET_PROMPT _ _ =>
      showMessage "Please select a cabinet to add the selected text" .info p
  | .SHOW_ERROR m => showMessage m .error p
  | .DRAG_DROP_TEXT _ => p

/-- Events delivered to the panel's event loop. -/
inductive PanelEvent where
  | drop (data : String)
  | message (m : Message)
  deriving DecidableEq

/-- One turn of the panel's event loop at time `now`: expired timers run first,
then the event's listener. -/
def step (addReply listReply : Option Reply) (p : Panel) (timed : Nat × PanelEvent) : Panel :=
  match timed.2 with
  | .drop data => onDrop timed.1 data addReply listReply (fireTimers timed.1 p)
  | .message m => onMessage m addReply listReply (fireTimers timed.1 p)

/-- Runs a sequence of timed events, in order. -/
def run (addReply listReply : Option Reply) (p : Panel) (events : List (Nat × PanelEvent)) : Panel :=
  events.foldl (step addReply listReply) p

/-! ## content.js -/

/-- The module variables `isDragging` and `selectedText` of the content script. -/
structure Tracker where
  isDragging : Bool
  selectedText : String
  deriving DecidableEq

/-- The initial values of the module variables. -/
def Tracker.initial : Tracker := ⟨false, ""⟩

/-- Page events the content script listens to; `mouseup` carries
`window.getSelection().toString()`. -/
inductive PageEvent where
  | mouseup (selection : String)
  | dragstart
  | dragend
  deriving DecidableEq

/-- Effects of the content script: `e.dataTransfer.setData('text/plain', _)`
and `chrome.runtime.sendMessage`. -/
inductive ContentEffect where
  | setData (text : String)
  | sendMessage (m : Message)
  deriving DecidableEq

/-- The `mouseup` listener. -/
def onMouseup (selection : String) (s : Tracker) : Tracker × List ContentEffect :=
  ({ s with selectedText := jsTrim selection }, [])

/-- The `dragstart` listener. -/
def onDragstart (s : Tracker) : Tracker × List ContentEffect :=
  if s.selectedText != "" then
    ({ s with isDragging := true }, [.setData s.selectedText])
  else (s, [])

/-- The `dragend` listener. -/
def onDragend (s : Tracker) : Tracker × List ContentEffect :=
  if s.isDragging && s.selectedText != "" then
    ({ s with isDragging := false }, [.sendMessage (.DRAG_DROP_TEXT (some s.selectedText))])
  else (s, [])

/-- Dispatch of one page event to its listener. -/
def contentStep (s : Tracker) (e : PageEvent) : Tracker × List ContentEffect :=
  match e with
  | .mouseup selection => onMouseup selection s
  | .dragstart => onDragstart s
  | .dragend => onDragend s

/-- Runs a sequence of page events; returns the final state and all effects. -/
def contentRun : Tracker → List PageEvent → Tracker × List ContentEffect
  | s, [] => (s, [])
  | s, e :: es =>
      let r := contentStep s e
      let rs := contentRun r.1 es
      (rs.1, r.2 ++ rs.2)

/-- Is the effect the sending of a `DRAG_DROP_TEXT` message? -/
def ContentEffect.isDragDrop : ContentEffect → Bool
  | .sendMessage (.DRAG_DROP_TEXT _) => true
  | _ => false

/-- Is the event a `dragstart`? -/
def PageEvent.isDragstart : PageEvent → Bool
  | .dragstart => true
  | _ => false

/-! ## sidepanel.js: score of a search result -/

/-- A JavaScript number as far as `displaySearchResults` tells numbers apart:
`NaN`, an infinity, or a finite double given by its exact value. -/
inductive JSDouble where
  | nan
  | inf (negative : Bool)
  | fin (q : ℚ)

/-- The operations on doubles whose result depends on rounding or on number
syntax.  They are parameters of the model: `mul100 x` is `x * 100`,
`toFixed1 x` is `x.toFixed(1)`, and `toNumber s` is `Number(s)` for a string
that is not a short run of decimal digits. -/
structure DoubleOps where
  mul100 : JSDouble → JSDouble
  toFixed1 : JSDouble → String
  toNumber : String → JSDouble

/-- The value of a score field of a search result: missing (`undefined` or
`null`), a number, or a string.  Booleans, arrays and objects are not
modelled. -/
inductive ScoreValue where
  | missing
  | num (x : JSDouble)
  | str (s : String)

/-- The score fields of a search result. -/
structure SearchResult where
  relevance_score : ScoreValue
  score : ScoreValue
  confidence : ScoreValue

/-- Truthiness of a field value: missing, `NaN`, `0` and `""` are falsy. -/
def ScoreValue.truthy : ScoreValue → Bool
  | .missing => false
  | .num .nan => false
  | .num (.inf _) => true
  | .num (.fin q) => q != 0
  | .str s => s != ""

/-- The expression
`result.relevance_score || result.score || result.confidence || 0`. -/
def scoreOf (result : SearchResult) : ScoreValue :=
  if result.relevance_score.truthy then result.relevance_score
  else if result.score.truthy then result.score
  else if result.confidence.truthy then result.confidence
  else .num (.fin 0)

/-- Value of a string made of decimal digits only. -/
def readAllDigits : List Char → Nat → Option Nat
  | [], acc => some acc
  | c :: cs, acc =>
      if 48 ≤ c.toNat ∧ c.toNat ≤ 57 then readAllDigits cs (acc * 10 + (c.toNat - 48))
      else none

/-- The conversion `Number(s)` of a string: a run of 1 to 15 decimal digits is
the integer it denotes (exactly representable); other strings are left to
`ops.toNumber`. -/
def stringToNumber (ops : DoubleOps) (s : String) : JSDouble :=
  if s.data ≠ [] ∧ s.data.length ≤ 15 then
    match readAllDigits s.data 0 with
    | some n => .fin n
    | none => ops.toNumber s
  else ops.toNumber s

/-- The numeric value a field value has in `isNaN`, `<=` and `*`. -/
def ScoreValue.toNumber (ops : DoubleOps) : ScoreValue → JSDouble
  | .missing => .nan
  | .num x => x
  | .str s => stringToNumber ops s

/-- The test `x <= 1`. -/
def JSDouble.le1 : JSDouble → Bool
  | .nan => false
  | .inf negative => negative
  | .fin q => decide (q ≤ 1)

/-- The test `isNaN(x)` on a number. -/
def JSDouble.isNaN : JSDouble → Bool
  | .nan => true
  | _ => false

/-- The guard `isNaN(score) || score === null || score === undefined`. -/
def needsReset (ops : DoubleOps) : ScoreValue → Bool
  | .missing => true
  | v => (v.toNumber ops).isNaN

/-- The text in front of the percent sign that `displaySearchResults` produces
for one result, `percentage.toFixed(1)`; `none` when that call raises a
`TypeError` because `percentage` is a string, which has no `toFixed`. -/
def resultScoreText (ops : DoubleOps) (result : SearchResult) : Option String :=
  let score0 := scoreOf result
  let score := if needsReset ops score0 then ScoreValue.num (.fin 0) else score0
  let percentage :=
    if (score.toNumber ops).le1 then ScoreValue.num (ops.mul100 (score.toNumber ops))
    else score
  match percentage with
  | .num x => some (ops.toFixed1 x)
  | _ => none

/-! ## config.js: `ApiClient.request` -/

/-- A thrown JavaScript error, by its `name` and `message`. -/
structure JSError where
  name : String
  message : String
  deriving DecidableEq

/-- A decoded JSON body; `detail` is the server's error detail when present. -/
structure JsonValue where
  detail : Option String
  raw : String
  deriving DecidableEq

/-- What `request` reads from a `Response`: the status, the status text and
the outcome of `response.json()`. -/
structure Response where
  status : Nat
  statusText : String
  json : Except JSError JsonValue

/-- The property `response.ok`: the status is in the range 200 to 299. -/
def Response.ok (r : Response) : Bool := decide (200 ≤ r.status) && decide (r.status ≤ 299)

/-- The constant `CONFIG.API.DEFAULT_BASE_URL`. -/
def DEFAULT_BASE_URL : String := "http://localhost:8000"

/-- The URL requested: `this.baseUrl` as set by `updateSettings()`
(`API_URL || DEFAULT_BASE_URL`) followed by the endpoint. -/
def requestUrl (apiUrl : Option String) (endpoint : String) : String :=
  (if truthyStr apiUrl then apiUrl.getD DEFAULT_BASE_URL else DEFAULT_BASE_URL) ++ endpoint

/-- The `catch` block of `request`. -/
def requestCatch (error : JSError) : Except JSError JsonValue :=
  if error.name = "AbortError" then .error ⟨"Error", "Request timeout"⟩
  else .error error

/-- The method `ApiClient.request(endpoint, options)`.  `apiUrl` is the setting
`API_URL`; `fetch` gives the outcome of the call for a URL, where an abort by
the timeout timer is a rejection named `AbortError`. -/
def ApiClient.request (apiUrl : Option String) (fetch : String → Except JSError Response)
    (endpoint : String) : Except JSError JsonValue :=
  match fetch (requestUrl apiUrl endpoint) with
  | .ok response =>
      if !response.ok then
        requestCatch ⟨"Error", "HTTP " ++ toString response.status ++ ": " ++ response.statusText⟩
      else
        match response.json with
        | .ok data => .ok data
        | .error e => requestCatch e
  | .error e => requestCatch e

/-! ## config.js: `CacheManager._cleanup` -/

/-- A cache item `{ value, expires }`. -/
structure CacheItem where
  value : String
  expires : Int
  deriving DecidableEq

/-- The cache object as the list of its entries (`Object.entries`), keys
distinct. -/
abbrev Cache := List (String × CacheItem)

/-- The method `CacheManager._cleanup(cache)` with `now = Date.now()` and
`maxSize` the setting `MAX_CACHE_SIZE` (a size); the result is the content of
`cache` afterwards.  The sort is stable and descending in `expires`;
`splice(maxSize)` keeps the first `maxSize` entries. -/
def CacheManager._cleanup (now : Int) (maxSize : Nat) (cache : Cache) : Cache :=
  let validEntries := cache.filter (fun entry => decide (entry.2.expires > now))
  if validEntries.length > maxSize then
    (validEntries.insertionSort (fun a b => b.2.expires ≤ a.2.expires)).take maxSize
  else validEntries

/-! ## Auxiliary definitions for the statements -/

/-- Is the effect an informational message (the panel's prompt)? -/
def PanelEffect.isInfoMessage : PanelEffect → Bool
  | .showMessage _ .info => true
  | _ => false

/-- The bounds are integers with minimum below maximum. -/
def Settings.isOrdered : Settings → Bool
  | ⟨.int a, .int b⟩ => decide (a < b)
  | _ => false

/-- The bounds are positive integers with minimum below maximum. -/
def Settings.isPositiveOrdered : Settings → Bool
  | ⟨.int a, .int b⟩ => decide (0 < a) && decide (a < b)
  | _ => false


/-- The effects that follow the add request, by the server's replies. -/
def afterAdd (target : String) (ar lr : Option Reply) : List PanelEffect :=
  match ar with
  | some r =>
      if r.ok && r.message then
        [.showMessage ("Added text to \"" ++ target ++ "\"") .success, .fetch .listCabinets] ++
          (match lr with
           | some l => if l.success then []
                       else [.showMessage "Cannot connect to MCP-Cabinets Server" .error]
           | none => [.showMessage "Cannot connect to MCP-Cabinets Server" .error])
      else [.showMessage "Failed to add text to cabinet" .error]
  | none => [.showMessage "Failed to add text to cabinet" .error]

/-- The text `sub` occurs in `s`. -/
def containsText (s sub : String) : Prop := sub.data <:+: s.data

instance (s sub : String) : Decidable (containsText s sub) :=
  inferInstanceAs (Decidable (sub.data <:+: s.data))

/-- A successful reply of the server. -/
def okReply : Reply := ⟨true, true, true, ["notes"]⟩

/-! ## Concrete inputs -/

/-- Storage as written by the installer, with cabinet `notes` selected. -/
def notesStorage : Storage := ⟨some "notes", some (.int 10), some (.int 5000)⟩

/-- A tab showing a page. -/
def pageTab : Tab := ⟨1, some "https://example.org/page"⟩

/-- A panel started over the given storage in which cabinet `notes` was then
selected. -/
def notesPanel (storage : Storage) : Panel :=
  selectCabinet "notes" (init (some okReply) (Panel.new storage))

/-- A server that answers every request with status 404 and a JSON body that
carries a detail message. -/
def notFoundFetch : String → Except JSError Response :=
  fun _ => .ok ⟨404, "Not Found", .ok ⟨some "Cabinet archive does not exist", "{}"⟩⟩

/-- A server that answers every request with status 200 and a JSON body. -/
def okFetch : String → Except JSError Response :=
  fun _ => .ok ⟨200, "OK", .ok ⟨none, "{}"⟩⟩

/-- The panel after the user saved the minimum `0` and the maximum `5000`. -/
def zeroMinPanel : Panel := saveSettings "0" "5000" (notesPanel notesStorage)

/-- The panel after the user saved the minimum `-5` and the maximum `0`. -/
def zeroMaxPanel : Panel := saveSettings "-5" "0" (notesPanel notesStorage)

/-- The panel after the user saved the minimum `0` and the maximum `5`. -/
def smallMaxPanel : Panel := saveSettings "0" "5" (notesPanel notesStorage)

/-- A panel opened anew over the storage left by `smallMaxPanel`. -/
def reloadedPanel : Panel := init (some okReply) (Panel.new smallMaxPanel.storage)

/-- The panel after the user saved an empty minimum field and the maximum `16`. -/
def emptyMinPanel : Panel := saveSettings "" "16" (notesPanel notesStorage)

/-- A search result whose `relevance_score` is the string `85`. -/
def stringScoreResult : SearchResult := ⟨.str "85", .missing, .missing⟩

/-- A search result whose `relevance_score` is the number 85. -/
def numberScoreResult : SearchResult := ⟨.num (.fin 85), .missing, .missing⟩

/-- A cache of four entries; `a` has expired at time 1000. -/
def sampleCache : Cache :=
  [("a", ⟨"va", 900⟩), ("b", ⟨"vb", 1500⟩), ("c", ⟨"vc", 3000⟩), ("d", ⟨"vd", 2000⟩)]

/-! ## Auxiliary lemmas -/

/-- A stored non-zero integer is the bound the worker uses. -/
theorem orDefault_of_ne_zero (n d : Int) (h : n ≠ 0) : orDefault (some (.int n)) d = n := by
  simp [orDefault, h]


theorem utf16Units_replicate_x (n : Nat) : utf16Units (List.replicate n 'x') = n := by
  induction n with
  | zero => rfl
  | succ k ih =>
      have hx : ('x').toNat < 65536 := by decide
      simp [List.replicate_succ, utf16Units, ih, hx, Nat.add_comm]

theorem jsLength_replicate_x (n : Nat) : jsLength ⟨List.replicate n 'x'⟩ = n :=
  utf16Units_replicate_x n

/-- Two strings that differ within their first `n` characters stay different
whatever is appended to them. -/
theorem append_ne_of_take_ne (n : Nat) (a b x y : String)
    (ha : n ≤ a.data.length) (hb : n ≤ b.data.length)
    (hne : a.data.take n ≠ b.data.take n) : a ++ x ≠ b ++ y := by
  intro h
  apply hne
  have h2 := congrArg (fun s : String => s.data.take n) h
  simpa [String.data_append, List.take_append_of_le_length ha,
    List.take_append_of_le_length hb] using h2

theorem tooShortMessage_ne_tooLongMessage (a b : Int) :
    tooShortMessage a ≠ tooLongMessage b := by
  unfold tooShortMessage tooLongMessage
  rw [String.append_assoc, String.append_assoc]
  exact append_ne_of_take_ne 22 _ _ _ _ (by decide) (by decide) (by decide)

theorem textTooShort_ne_textTooLong (a b : JSNum) : textTooShort a ≠ textTooLong b := by
  unfold textTooShort textTooLong
  rw [String.append_assoc, String.append_assoc]
  exact append_ne_of_take_ne 10 _ _ _ _ (by decide) (by decide) (by decide)

theorem addText_tooShort (T D : String) (u c : Option String) (ar lr : Option Reply)
    (p : Panel) (lo hi : Int) (hD : D ≠ "")
    (hp : (if truthyStr c then c else p.selectedCabinet) = some D)
    (hset : p.settings = ⟨.int lo, .int hi⟩) (h : (jsLength T : Int) < lo) :
    (addTextToCabinet T u c ar lr p).log
      = p.log ++ [.addTextToCabinetCalled T u c, .showMessage (textTooShort (.int lo)) .error] := by
  unfold addTextToCabinet
  simp [hp, hD, hset, JSNum.lt, showMessage, h]

theorem addText_tooLong (T D : String) (u c : Option String) (ar lr : Option Reply)
    (p : Panel) (lo hi : Int) (hD : D ≠ "")
    (hp : (if truthyStr c then c else p.selectedCabinet) = some D)
    (hset : p.settings = ⟨.int lo, .int hi⟩) (h1 : lo ≤ (jsLength T : Int))
    (h2 : hi < (jsLength T : Int)) :
    (addTextToCabinet T u c ar lr p).log
      = p.log ++ [.addTextToCabinetCalled T u c, .showMessage (textTooLong (.int hi)) .error] := by
  unfold addTextToCabinet
  simp [hp, hD, hset, JSNum.lt, JSNum.gt, showMessage, h1, h2, not_lt.mpr h1]

theorem addText_accepted (T D : String) (u c : Option String) (ar lr : Option Reply)
    (p : Panel) (lo hi : Int) (hD : D ≠ "")
    (hp : (if truthyStr c then c else p.selectedCabinet) = some D)
    (hset : p.settings = ⟨.int lo, .int hi⟩) (h1 : lo ≤ (jsLength T : Int))
    (h2 : (jsLength T : Int) ≤ hi) :
    (addTextToCabinet T u c ar lr p).log
      = p.log ++ [.addTextToCabinetCalled T u c,
          .fetch (.addToCabinet D T (u.getD "unknown"))] ++ afterAdd D ar lr := by
  unfold addTextToCabinet afterAdd
  simp only [hp, hD, hset, JSNum.lt, JSNum.gt, showMessage, not_lt.mpr h1, not_lt.mpr h2,
    if_false, decide_False, Bool.false_eq_true]
  cases ar with
  | none => simp
  | some r =>
      by_cases hr : (r.ok && r.message) = true
      · simp only [hr, if_true, loadCabinets, showMessage]
        cases lr with
        | none => simp
        | some l => by_cases hl : l.success = true <;> simp [hl]
      · simp [hr]

/-! ## The two length checks (C1) -/

/-- What the two length checks answer, in terms of the values they compare
against (the constants `minLength` and `maxLength` of the worker, which are the
stored values after the `||` fallback, and `this.settings` in the panel), with
a destination `D` selected: too short exactly when `length T < min`, too long
exactly when `min <= length T` and `length T > max`, let through exactly when
`min <= length T <= max`. -/
theorem lengthChecks_verdicts (st : Storage) (tab : Tab) (p : Panel) (T D : String)
    (u c : Option String) (ar lr : Option Reply) (lo hi : Int)
    (hD : D ≠ "") (hst : st.selectedCabinet = some D)
    (hp : (if truthyStr c then c else p.selectedCabinet) = some D)
    (hset : p.settings = ⟨.int lo, .int hi⟩) :
    (contextMenusOnClicked st ⟨"add-to-cabinet", some T⟩ tab
        = [.sendMessage (.SHOW_ERROR (tooShortMessage (minLength st)))]
      ↔ (jsLength T : Int) < minLength st) ∧
    (contextMenusOnClicked st ⟨"add-to-cabinet", some T⟩ tab
        = [.sendMessage (.SHOW_ERROR (tooLongMessage (maxLength st)))]
      ↔ minLength st ≤ (jsLength T : Int) ∧ (jsLength T : Int) > maxLength st) ∧
    (contextMenusOnClicked st ⟨"add-to-cabinet", some T⟩ tab
        = [.sendMessage (.ADD_TEXT_TO_CABINET D T tab.url), .sidePanelOpen tab.id]
      ↔ minLength st ≤ (jsLength T : Int) ∧ (jsLength T : Int) ≤ maxLength st) ∧
    ((addTextToCabinet T u c ar lr p).log
        = p.log ++ [.addTextToCabinetCalled T u c, .showMessage (textTooShort (.int lo)) .error]
      ↔ (jsLength T : Int) < lo) ∧
    ((addTextToCabinet T u c ar lr p).log
        = p.log ++ [.addTextToCabinetCalled T u c, .showMessage (textTooLong (.int hi)) .error]
      ↔ lo ≤ (jsLength T : Int) ∧ (jsLength T : Int) > hi) ∧
    ((∃ rest, (addTextToCabinet T u c ar lr p).log
        = p.log ++ [.addTextToCabinetCalled T u c,
            .fetch (.addToCabinet D T (u.getD "unknown"))] ++ rest)
      ↔ lo ≤ (jsLength T : Int) ∧ (jsLength T : Int) ≤ hi) := by
  have hne := tooShortMessage_ne_tooLongMessage (minLength st) (maxLength st)
  have hne2 := textTooShort_ne_textTooLong (.int lo) (.int hi)
  refine ⟨?_, ?_, ?_, ?_, ?_, ?_⟩
  · unfold contextMenusOnClicked
    simp only [hst, hD, if_true, if_false]
    split_ifs with h1 h2
    · simp [h1]
    · simp [h1, hne.symm]
    · simp [h1]
  · unfold contextMenusOnClicked
    simp only [hst, hD, if_true, if_false]
    split_ifs with h1 h2
    · simp [hne]; intro h; omega
    · simp; omega
    · simp; intro h; omega
  · unfold contextMenusOnClicked
    simp only [hst, hD, if_true, if_false]
    split_ifs with h1 h2
    · simp; intro h; omega
    · simp; intro h; omega
    · simp; omega
  · by_cases h1 : (jsLength T : Int) < lo
    · simp [h1, addText_tooShort T D u c ar lr p lo hi hD hp hset h1]
    · by_cases h2 : hi < (jsLength T : Int)
      · rw [addText_tooLong T D u c ar lr p lo hi hD hp hset (not_lt.mp h1) h2]
        simp [h1, hne2.symm]
      · rw [addText_accepted T D u c ar lr p lo hi hD hp hset (not_lt.mp h1) (not_lt.mp h2)]
        simp [h1]
  · by_cases h1 : (jsLength T : Int) < lo
    · rw [addText_tooShort T D u c ar lr p lo hi hD hp hset h1]
      simp [hne2]; intro h; omega
    · by_cases h2 : hi < (jsLength T : Int)
      · rw [addText_tooLong T D u c ar lr p lo hi hD hp hset (not_lt.mp h1) h2]
        simp [h2]; omega
      · rw [addText_accepted T D u c ar lr p lo hi hD hp hset (not_lt.mp h1) (not_lt.mp h2)]
        simp; intro h; omega
  · by_cases h1 : (jsLength T : Int) < lo
    · rw [addText_tooShort T D u c ar lr p lo hi hD hp hset h1]
      simp; intro h; omega
    · by_cases h2 : hi < (jsLength T : Int)
      · rw [addText_tooLong T D u c ar lr p lo hi hD hp hset (not_lt.mp h1) h2]
        simp; intro h; omega
      · rw [addText_accepted T D u c ar lr p lo hi hD hp hset (not_lt.mp h1) (not_lt.mp h2)]
        constructor
        · intro _; omega
        · intro _; exact ⟨afterAdd D ar lr, rfl⟩

/-- For stored bounds that are non-zero integers `lo <= hi` the worker's check
answers by the stored values themselves: too short exactly when
`length T < lo`, too long exactly when `length T > hi`, and the text is sent on
exactly when `lo <= length T <= hi`. -/
theorem worker_verdicts_of_stored (st : Storage) (tab : Tab) (T D : String) (lo hi : Int)
    (hD : D ≠ "") (hst : st.selectedCabinet = some D)
    (hmin : st.minTextLength = some (.int lo)) (hmax : st.maxTextLength = some (.int hi))
    (hlo : lo ≠ 0) (hhi : hi ≠ 0) (hle : lo ≤ hi) :
    (contextMenusOnClicked st ⟨"add-to-cabinet", some T⟩ tab
        = [.sendMessage (.SHOW_ERROR (tooShortMessage lo))]
      ↔ (jsLength T : Int) < lo) ∧
    (contextMenusOnClicked st ⟨"add-to-cabinet", some T⟩ tab
        = [.sendMessage (.SHOW_ERROR (tooLongMessage hi))]
      ↔ (jsLength T : Int) > hi) ∧
    (contextMenusOnClicked st ⟨"add-to-cabinet", some T⟩ tab
        = [.sendMessage (.ADD_TEXT_TO_CABINET D T tab.url), .sidePanelOpen tab.id]
      ↔ lo ≤ (jsLength T : Int) ∧ (jsLength T : Int) ≤ hi) := by
  have h1 : minLength st = lo := by simp [minLength, hmin, orDefault, hlo]
  have h2 : maxLength st = hi := by simp [maxLength, hmax, orDefault, hhi]
  have h := lengthChecks_verdicts st tab
    { Panel.new st with selectedCabinet := some D, settings := ⟨.int lo, .int hi⟩ }
    T D none none none none lo hi hD hst (by simp [truthyStr]) rfl
  rw [h1, h2] at h
  refine ⟨h.1, ?_, h.2.2.1⟩
  rw [h.2.1]
  constructor
  · intro hx; exact hx.2
  · intro hx; exact ⟨by omega, hx⟩

/-- C1, evaluated where the code departs from it: the fields `0` and `5000` are
accepted and persisted by `saveSettings`, so the stored bounds are 0 and 5000;
the text `hello` is not shorter than the stored minimum, yet the worker's check
reports it as too short (against `0 || 10`). -/
theorem C1_failing_input :
    zeroMinPanel.storage.minTextLength = some (.int 0) ∧
    zeroMinPanel.storage.maxTextLength = some (.int 5000) ∧
    ¬ ((jsLength "hello" : Int) < 0) ∧
    ¬ ((jsLength "hello" : Int) > 5000) ∧
    contextMenusOnClicked zeroMinPanel.storage ⟨"add-to-cabinet", some "hello"⟩ pageTab
      = [.sendMessage (.SHOW_ERROR (tooShortMessage 10))] ∧
    tooShortMessage 10 = "Selected text is too short (minimum 10 characters)" := by
  decide

/-! ## The context-menu listener (C2 to C5) -/

/-- Whatever the trigger and the storage, the click listener sends
`ADD_TEXT_TO_CABINET` only if a destination is stored and the selection text has
a length between its constants `minLength` and `maxLength` (the stored values
after the `||` fallback); in every other case each message it sends is
`SHOW_CABINET_PROMPT` or `SHOW_ERROR`. -/
theorem add_only_within_used_bounds (st : Storage) (info : OnClickData) (tab : Tab) :
    (∀ m ∈ sentMessages (contextMenusOnClicked st info tab), m.isAdd = true →
      truthyStr st.selectedCabinet = true ∧
      ∃ T, info.selectionText = some T ∧
        minLength st ≤ (jsLength T : Int) ∧ (jsLength T : Int) ≤ maxLength st) ∧
    (¬ (truthyStr st.selectedCabinet = true ∧
        ∃ T, info.selectionText = some T ∧
          minLength st ≤ (jsLength T : Int) ∧ (jsLength T : Int) ≤ maxLength st) →
      ∀ m ∈ sentMessages (contextMenusOnClicked st info tab),
        (m.isPrompt = true ∨ m.isError = true) ∧ m.isAdd = false) := by
  have key : ∀ m ∈ sentMessages (contextMenusOnClicked st info tab),
      (m.isAdd = true → truthyStr st.selectedCabinet = true ∧
        ∃ T, info.selectionText = some T ∧
          minLength st ≤ (jsLength T : Int) ∧ (jsLength T : Int) ≤ maxLength st) ∧
      (m.isAdd = false → m.isPrompt = true ∨ m.isError = true) := by
    intro m hm
    unfold contextMenusOnClicked at hm
    split_ifs at hm with hid
    · cases hsel : st.selectedCabinet with
      | none =>
          simp [hsel, sentMessages, Effect.message] at hm
          subst hm
          simp [Message.isAdd, Message.isPrompt]
      | some D =>
          simp only [hsel] at hm
          split_ifs at hm with hD
          · simp [sentMessages, Effect.message] at hm
            subst hm
            simp [Message.isAdd, Message.isPrompt]
          · cases htxt : info.selectionText with
            | none => simp [htxt, sentMessages, Effect.message] at hm
            | some T =>
                simp only [htxt] at hm
                split_ifs at hm with h1 h2
                · simp [sentMessages, Effect.message] at hm
                  subst hm
                  simp [Message.isAdd, Message.isError]
                · simp [sentMessages, Effect.message] at hm
                  subst hm
                  simp [Message.isAdd, Message.isError]
                · simp [sentMessages, Effect.message] at hm
                  subst hm
                  simp [Message.isAdd, truthyStr, hD]
                  omega
    · simp [sentMessages] at hm
  refine ⟨fun m hm => (key m hm).1, ?_⟩
  intro hnot m hm
  have hadd : m.isAdd = false := by
    cases h : m.isAdd with
    | false => rfl
    | true => exact absurd ((key m hm).1 h) hnot
  exact ⟨(key m hm).2 hadd, hadd⟩

/-- C2, evaluated where the code departs from it: the fields `-5` and `0` are
accepted and persisted by `saveSettings`, so the stored bounds are -5 and 0;
the text `hello` is longer than the stored maximum, yet the listener sends
`ADD_TEXT_TO_CABINET` (it compares against `0 || 5000`). -/
theorem C2_failing_input :
    zeroMaxPanel.storage.selectedCabinet = some "notes" ∧
    zeroMaxPanel.storage.minTextLength = some (.int (-5)) ∧
    zeroMaxPanel.storage.maxTextLength = some (.int 0) ∧
    (jsLength "hello" : Int) > 0 ∧
    contextMenusOnClicked zeroMaxPanel.storage ⟨"add-to-cabinet", some "hello"⟩ pageTab
      = [.sendMessage (.ADD_TEXT_TO_CABINET "notes" "hello" pageTab.url),
         .sidePanelOpen pageTab.id] := by
  decide

/-- C3.  When no destination is selected, a click on the menu item yields, for
every selection text (of any length, present or not) and every URL, exactly the
opening of the panel and the prompt `SHOW_CABINET_PROMPT` carrying that text and
that URL; no other message is sent.  The destination is tested before the
length. -/
theorem C3_prompt_without_destination (st : Storage) (info : OnClickData) (tab : Tab)
    (hid : info.menuItemId = "add-to-cabinet")
    (hno : truthyStr st.selectedCabinet = false) :
    contextMenusOnClicked st info tab
      = [.sidePanelOpen tab.id,
         .sendMessageAfter 500 (.SHOW_CABINET_PROMPT info.selectionText tab.url)] ∧
    sentMessages (contextMenusOnClicked st info tab)
      = [.SHOW_CABINET_PROMPT info.selectionText tab.url] := by
  have h : contextMenusOnClicked st info tab
      = [.sidePanelOpen tab.id,
         .sendMessageAfter 500 (.SHOW_CABINET_PROMPT info.selectionText tab.url)] := by
    unfold contextMenusOnClicked
    cases hsel : st.selectedCabinet with
    | none => simp [hid]
    | some D =>
        have hD : D = "" := by simpa [truthyStr, hsel] using hno
        simp [hid, hD]
  exact ⟨h, by rw [h]; rfl⟩

/-- Witness of C3: the selection `hi` under the bounds 10 and 5000 with no
destination stored. -/
theorem C3_prompt_without_destination_witness :
    contextMenusOnClicked ⟨none, some (.int 10), some (.int 5000)⟩
        ⟨"add-to-cabinet", some "hi"⟩ pageTab
      = [.sidePanelOpen 1,
         .sendMessageAfter 500
           (.SHOW_CABINET_PROMPT (some "hi") (some "https://example.org/page"))] ∧
    sentMessages (contextMenusOnClicked ⟨none, some (.int 10), some (.int 5000)⟩
        ⟨"add-to-cabinet", some "hi"⟩ pageTab)
      = [.SHOW_CABINET_PROMPT (some "hi") (some "https://example.org/page")] :=
  C3_prompt_without_destination ⟨none, some (.int 10), some (.int 5000)⟩
    ⟨"add-to-cabinet", some "hi"⟩ pageTab rfl rfl

/-- With destination `D` selected, a click with a text `T` whose length lies
between the listener's constants `minLength` and `maxLength` (the stored values
after the `||` fallback) yields `ADD_TEXT_TO_CABINET` with cabinet `D`, the text
`T` unchanged and the tab's URL as `sourceUrl`. -/
theorem add_within_used_bounds (st : Storage) (tab : Tab) (D T : String)
    (hD : D ≠ "") (hst : st.selectedCabinet = some D)
    (hmin : minLength st ≤ (jsLength T : Int)) (hmax : (jsLength T : Int) ≤ maxLength st) :
    contextMenusOnClicked st ⟨"add-to-cabinet", some T⟩ tab
      = [.sendMessage (.ADD_TEXT_TO_CABINET D T tab.url), .sidePanelOpen tab.id] ∧
    sentMessages (contextMenusOnClicked st ⟨"add-to-cabinet", some T⟩ tab)
      = [.ADD_TEXT_TO_CABINET D T tab.url] := by
  have h : contextMenusOnClicked st ⟨"add-to-cabinet", some T⟩ tab
      = [.sendMessage (.ADD_TEXT_TO_CABINET D T tab.url), .sidePanelOpen tab.id] := by
    unfold contextMenusOnClicked
    simp [hst, hD, not_lt.mpr hmin, not_lt.mpr hmax]
  exact ⟨h, by rw [h]; rfl⟩

/-- With a destination selected, a click with a text shorter than the
listener's constant `minLength` yields a `SHOW_ERROR` whose message contains
`minimum <minLength>`, and a click with a text longer than `maxLength` and not
shorter than `minLength` yields one whose message contains
`maximum <maxLength>`. -/
theorem error_names_used_bound (st : Storage) (tab : Tab) (D T : String)
    (hD : D ≠ "") (hst : st.selectedCabinet = some D) :
    ((jsLength T : Int) < minLength st →
      ∃ msg, contextMenusOnClicked st ⟨"add-to-cabinet", some T⟩ tab
          = [.sendMessage (.SHOW_ERROR msg)] ∧
        containsText msg ("minimum " ++ toString (minLength st))) ∧
    (minLength st ≤ (jsLength T : Int) → (jsLength T : Int) > maxLength st →
      ∃ msg, contextMenusOnClicked st ⟨"add-to-cabinet", some T⟩ tab
          = [.sendMessage (.SHOW_ERROR msg)] ∧
        containsText msg ("maximum " ++ toString (maxLength st))) := by
  constructor
  · intro h
    refine ⟨tooShortMessage (minLength st), ?_, ?_⟩
    · unfold contextMenusOnClicked
      simp [hst, hD, h]
    · refine ⟨"Selected text is too short (".data, " characters)".data, ?_⟩
      simp [tooShortMessage, String.data_append]
  · intro h1 h2
    refine ⟨tooLongMessage (maxLength st), ?_, ?_⟩
    · unfold contextMenusOnClicked
      simp [hst, hD, not_lt.mpr h1, h2]
    · refine ⟨"Selected text is too long (".data, " characters)".data, ?_⟩
      simp [tooLongMessage, String.data_append]

/-- C4, evaluated where the code departs from it: with destination `notes`
selected and the stored bounds 0 and 5000 (saved through `saveSettings`), the
text `hello` has a length between the bounds, yet the listener sends no
`ADD_TEXT_TO_CABINET`; it sends the too-short error. -/
theorem C4_failing_input :
    zeroMinPanel.storage.selectedCabinet = some "notes" ∧
    zeroMinPanel.storage.minTextLength = some (.int 0) ∧
    zeroMinPanel.storage.maxTextLength = some (.int 5000) ∧
    (0 : Int) ≤ (jsLength "hello" : Int) ∧ (jsLength "hello" : Int) ≤ 5000 ∧
    sentMessages (contextMenusOnClicked zeroMinPanel.storage
        ⟨"add-to-cabinet", some "hello"⟩ pageTab)
      = [.SHOW_ERROR "Selected text is too short (minimum 10 characters)"] ∧
    ∀ m ∈ sentMessages (contextMenusOnClicked zeroMinPanel.storage
        ⟨"add-to-cabinet", some "hello"⟩ pageTab), m.isAdd = false := by
  decide

/-- C5, evaluated where the code departs from it.  With the stored bounds 0 and
5 (saved through `saveSettings`) a text of seven characters is longer than the
maximum, but the error sent names `minimum 10` and does not contain
`maximum 5`; with the stored bounds -5 and 0 the text `hello` is longer than
the maximum and no error is sent at all. -/
theorem C5_failing_input :
    smallMaxPanel.storage.minTextLength = some (.int 0) ∧
    smallMaxPanel.storage.maxTextLength = some (.int 5) ∧
    (jsLength "1234567" : Int) > 5 ∧
    sentMessages (contextMenusOnClicked smallMaxPanel.storage
        ⟨"add-to-cabinet", some "1234567"⟩ pageTab)
      = [.SHOW_ERROR "Selected text is too short (minimum 10 characters)"] ∧
    ¬ containsText "Selected text is too short (minimum 10 characters)" "maximum 5" ∧
    zeroMaxPanel.storage.maxTextLength = some (.int 0) ∧
    (jsLength "hello" : Int) > 0 ∧
    ∀ m ∈ sentMessages (contextMenusOnClicked zeroMaxPanel.storage
        ⟨"add-to-cabinet", some "hello"⟩ pageTab), m.isError = false := by
  decide

/-! ## Settings and selection state of the panel (C6 to C8) -/

/-- C6.  When the two fields hold integers `min >= max`, `saveSettings` only
shows the error: `this.settings` and the persisted `minTextLength` and
`maxTextLength` (the whole storage) stay as they were. -/
theorem C6_saveSettings_rejects (minValue maxValue : String) (a b : Int) (p : Panel)
    (hmin : parseInt minValue = .int a) (hmax : parseInt maxValue = .int b) (h : a ≥ b) :
    saveSettings minValue maxValue p
      = showMessage "Min length must be less than max length" .error p ∧
    (saveSettings minValue maxValue p).settings = p.settings ∧
    (saveSettings minValue maxValue p).storage = p.storage ∧
    (saveSettings minValue maxValue p).log
      = p.log ++ [.showMessage "Min length must be less than max length" .error] := by
  have e : saveSettings minValue maxValue p
      = showMessage "Min length must be less than max length" .error p := by
    unfold saveSettings
    simp [hmin, hmax, JSNum.ge, h]
  rw [e]
  exact ⟨rfl, rfl, rfl, rfl⟩

/-- Witness of C6: the fields `10` and `5` over the default bounds 10 and 5000. -/
theorem C6_saveSettings_rejects_witness :
    saveSettings "10" "5" (notesPanel notesStorage)
      = showMessage "Min length must be less than max length" .error (notesPanel notesStorage) ∧
    (saveSettings "10" "5" (notesPanel notesStorage)).settings
      = (notesPanel notesStorage).settings ∧
    (saveSettings "10" "5" (notesPanel notesStorage)).storage
      = (notesPanel notesStorage).storage ∧
    (saveSettings "10" "5" (notesPanel notesStorage)).log
      = (notesPanel notesStorage).log ++
        [.showMessage "Min length must be less than max length" .error] :=
  C6_saveSettings_rejects "10" "5" 10 5 (notesPanel notesStorage) (by decide) (by decide)
    (by decide)

/-- C7.  Selecting `D` and then clearing the selection (by the clearing of
`loadSelectedCabinet`, or by a confirmed and successful `deleteCabinet` of the
selected, non-empty name) leaves the destination `null`, and selecting `D1` and
then `D2` leaves it equal to `D2`; the same holds for the persisted key. -/
theorem C7_selection_last_write_wins (p : Panel) (D D1 D2 : String) (r : Reply)
    (lr : Option Reply) :
    ((loadSelectedCabinet (selectCabinet D p)).selectedCabinet = none ∧
      (loadSelectedCabinet (selectCabinet D p)).storage.selectedCabinet = none) ∧
    (D ≠ "" → r.ok = true → r.message = true →
      (deleteCabinet true (some r) lr (selectCabinet D p)).selectedCabinet = none ∧
      (deleteCabinet true (some r) lr (selectCabinet D p)).storage.selectedCabinet = none) ∧
    ((selectCabinet D2 (selectCabinet D1 p)).selectedCabinet = some D2 ∧
      (selectCabinet D2 (selectCabinet D1 p)).storage.selectedCabinet = some D2) := by
  refine ⟨⟨rfl, rfl⟩, ?_, ⟨rfl, rfl⟩⟩
  intro hD hok hmsg
  unfold deleteCabinet
  simp only [selectCabinet, hD, if_false, hok, hmsg, Bool.and_self, Bool.not_true,
    if_true, loadCabinets, showMessage, Bool.false_eq_true]
  cases lr with
  | none => exact ⟨rfl, rfl⟩
  | some l => by_cases hl : l.success = true <;> simp [hl]

/-- Witness of C7: cabinet `notes` is selected and then deleted. -/
theorem C7_selection_last_write_wins_witness :
    (deleteCabinet true (some ⟨true, true, false, []⟩) none
        (selectCabinet "notes" (Panel.new notesStorage))).selectedCabinet = none ∧
    (deleteCabinet true (some ⟨true, true, false, []⟩) none
        (selectCabinet "notes" (Panel.new notesStorage))).storage.selectedCabinet = none :=
  (C7_selection_last_write_wins (Panel.new notesStorage) "notes" "a" "b"
    ⟨true, true, false, []⟩ none).2.1 (by decide) rfl rfl

/-- C8.  Whatever `selectedCabinet` value is persisted (present or absent) and
whatever the panel held before, after `loadSelectedCabinet`, and so after
`init`, the destination is `null` and the persisted key is removed. -/
theorem C8_selection_not_restored (p : Panel) (storage : Storage) (lr : Option Reply) :
    (loadSelectedCabinet p).selectedCabinet = none ∧
    (loadSelectedCabinet p).storage.selectedCabinet = none ∧
    (init lr (Panel.new storage)).selectedCabinet = none ∧
    (init lr (Panel.new storage)).storage.selectedCabinet = none := by
  refine ⟨rfl, rfl, ?_, ?_⟩ <;>
  · unfold init loadCabinets
    cases lr with
    | none => rfl
    | some l =>
        by_cases hl : l.success = true <;>
          simp [hl, showMessage, loadSelectedCabinet, checkServerConnection]

/-! ## Cabinet creation (C10) -/

theorem ne_empty_of_jsLength_pos (s : String) (h : 0 < jsLength s) : s ≠ "" := by
  intro e
  rw [e] at h
  exact absurd h (by decide)

/-- C10.  When the name entered is, after trimming, longer than 100 characters,
`createCabinet` shows an error and does nothing else: no request is issued and
the rest of the panel state is unchanged. -/
theorem C10_createCabinet_name_too_long (value : String) (cr lr : Option Reply) (p : Panel)
    (h : jsLength (jsTrim value) > 100) :
    createCabinet value cr lr p
      = showMessage "Cabinet name must be 100 characters or less" .error p ∧
    (createCabinet value cr lr p).log
      = p.log ++ [.showMessage "Cabinet name must be 100 characters or less" .error] ∧
    (createCabinet value cr lr p).log.countP PanelEffect.isFetch
      = p.log.countP PanelEffect.isFetch := by
  have hne : jsTrim value ≠ "" := ne_empty_of_jsLength_pos _ (by omega)
  have e : createCabinet value cr lr p
      = showMessage "Cabinet name must be 100 characters or less" .error p := by
    unfold createCabinet
    simp [hne, h]
  rw [e]
  refine ⟨rfl, rfl, ?_⟩
  simp [showMessage, List.countP_append, PanelEffect.isFetch]

/-- Witness of C10: the name made of 101 times `x`. -/
theorem C10_createCabinet_name_too_long_witness :
    createCabinet ⟨List.replicate 101 'x'⟩ none none (Panel.new notesStorage)
      = showMessage "Cabinet name must be 100 characters or less" .error
          (Panel.new notesStorage) ∧
    (createCabinet ⟨List.replicate 101 'x'⟩ none none (Panel.new notesStorage)).log
      = (Panel.new notesStorage).log ++
        [.showMessage "Cabinet name must be 100 characters or less" .error] ∧
    (createCabinet ⟨List.replicate 101 'x'⟩ none none (Panel.new notesStorage)).log.countP
        PanelEffect.isFetch
      = (Panel.new notesStorage).log.countP PanelEffect.isFetch :=
  C10_createCabinet_name_too_long ⟨List.replicate 101 'x'⟩ none none (Panel.new notesStorage)
    (by decide)

/-! ## Duplicate suppression between drop and forwarded message (C9) -/

/-- What `addTextToCabinet` leaves untouched, and what it appends to the log:
the marker of the call and then effects that are not such a marker, among them
at most one add request. -/
theorem addText_frame (T : String) (u c : Option String) (ar lr : Option Reply) (p : Panel) :
    (addTextToCabinet T u c ar lr p).selectedCabinet = p.selectedCabinet ∧
    (addTextToCabinet T u c ar lr p).dropProcessedRecently = p.dropProcessedRecently ∧
    (addTextToCabinet T u c ar lr p).timers = p.timers ∧
    ∃ rest, (addTextToCabinet T u c ar lr p).log
        = p.log ++ .addTextToCabinetCalled T u c :: rest ∧
      (∀ x, rest.countP (PanelEffect.isAddCall x) = 0) ∧
      rest.countP (PanelEffect.isAddRequest T) ≤ 1 := by
  have herr : ∀ (m : String) (L : List PanelEffect),
      L = p.log ++ [.addTextToCabinetCalled T u c, .showMessage m .error] →
      ∃ rest, L = p.log ++ .addTextToCabinetCalled T u c :: rest ∧
        (∀ x, rest.countP (PanelEffect.isAddCall x) = 0) ∧
        rest.countP (PanelEffect.isAddRequest T) ≤ 1 := by
    intro m L hL
    exact ⟨[.showMessage m .error], by simp [hL],
      by simp [PanelEffect.isAddCall], by simp [PanelEffect.isAddRequest]⟩
  have hacc : ∀ target : String,
      (afterAdd target ar lr).countP (PanelEffect.isAddRequest T) = 0 ∧
      ∀ x, (afterAdd target ar lr).countP (PanelEffect.isAddCall x) = 0 := by
    intro target
    unfold afterAdd
    cases ar with
    | none => simp [PanelEffect.isAddRequest, PanelEffect.isAddCall]
    | some r =>
        by_cases hr : (r.ok && r.message) = true
        · cases lr with
          | none => simp [hr, PanelEffect.isAddRequest, PanelEffect.isAddCall]
          | some l =>
              by_cases hl : l.success = true <;>
                simp [hr, hl, PanelEffect.isAddRequest, PanelEffect.isAddCall]
        · simp [hr, PanelEffect.isAddRequest, PanelEffect.isAddCall]
  have hlog : ∀ (target : String) (L : List PanelEffect),
      L = p.log ++ [.addTextToCabinetCalled T u c,
            .fetch (.addToCabinet target T (u.getD "unknown"))] ++ afterAdd target ar lr →
      ∃ rest, L = p.log ++ .addTextToCabinetCalled T u c :: rest ∧
        (∀ x, rest.countP (PanelEffect.isAddCall x) = 0) ∧
        rest.countP (PanelEffect.isAddRequest T) ≤ 1 := by
    intro target L hL
    refine ⟨.fetch (.addToCabinet target T (u.getD "unknown")) :: afterAdd target ar lr,
      by simp [hL], ?_, ?_⟩
    · intro x
      simp [List.countP_cons, (hacc target).2 x, PanelEffect.isAddCall]
    · simp [List.countP_cons, (hacc target).1, PanelEffect.isAddRequest]
  unfold addTextToCabinet
  simp only []
  split
  · exact ⟨rfl, rfl, rfl, herr _ _ (by simp [showMessage]; rfl)⟩
  · rename_i target _
    split_ifs
    · exact ⟨rfl, rfl, rfl, herr _ _ (by simp [showMessage]; rfl)⟩
    · exact ⟨rfl, rfl, rfl, herr _ _ (by simp [showMessage]; rfl)⟩
    · exact ⟨rfl, rfl, rfl, herr _ _ (by simp [showMessage]; rfl)⟩
    · cases ar with
      | none =>
          exact ⟨rfl, rfl, rfl, hlog target _ (by simp [showMessage, afterAdd])⟩
      | some r =>
          by_cases hr : (r.ok && r.message) = true
          · cases lr with
            | none =>
                refine ⟨?_, ?_, ?_, hlog target _ ?_⟩ <;>
                  simp [hr, loadCabinets, showMessage, afterAdd]
            | some l =>
                by_cases hl : l.success = true
                · refine ⟨?_, ?_, ?_, hlog target _ ?_⟩ <;>
                    simp [hr, hl, loadCabinets, showMessage, afterAdd]
                · refine ⟨?_, ?_, ?_, hlog target _ ?_⟩ <;>
                    simp [hr, hl, loadCabinets, showMessage, afterAdd]
          · refine ⟨?_, ?_, ?_, hlog target _ ?_⟩ <;>
              simp [hr, showMessage, afterAdd]

theorem fireTimers_frame (now : Nat) (p : Panel) :
    (fireTimers now p).selectedCabinet = p.selectedCabinet ∧
    (fireTimers now p).log = p.log ∧
    (∀ due ∈ (fireTimers now p).timers, due ∈ p.timers ∧ now < due) := by
  unfold fireTimers
  split_ifs with h
  · refine ⟨rfl, rfl, ?_⟩
    intro due hdue
    simpa using hdue
  · refine ⟨rfl, rfl, ?_⟩
    intro due hdue
    refine ⟨hdue, ?_⟩
    simp only [List.any_eq_true, decide_eq_true_eq, not_exists, not_and, not_le] at h
    exact h due hdue

/-- No timer callback runs at `now` when every pending timer is due later. -/
theorem fireTimers_of_pending (now : Nat) (p : Panel) (h : ∀ due ∈ p.timers, now < due) :
    fireTimers now p = p := by
  unfold fireTimers
  have : p.timers.any (fun due => decide (due ≤ now)) = false := by
    simp only [List.any_eq_false, decide_eq_true_eq, not_le]
    exact h
  simp [this]

/-- C9 (amended).  With a cabinet selected, when the panel handles the local
drop of a payload first and the forwarded `PROCESS_DRAGGED_TEXT` message for the
same payload less than 500 ms later, and no timer of an earlier drop expires
between the two, `addTextToCabinet` is invoked exactly once for that payload
(so at most one add request is issued), and not twice. -/
theorem C9_drop_then_message_once (p : Panel) (D text sourceUrl : String) (t1 t2 : Nat)
    (ar lr : Option Reply)
    (hsel : p.selectedCabinet = some D) (hD : D ≠ "") (htext : text ≠ "")
    (htimers : ∀ due ∈ p.timers, due ≤ t1 ∨ t2 < due)
    (horder : t1 ≤ t2) (hwindow : t2 < t1 + 500) :
    (run ar lr p [(t1, .drop text),
        (t2, .message (.PROCESS_DRAGGED_TEXT (some text) sourceUrl))]).log.countP
          (PanelEffect.isAddCall text)
      = p.log.countP (PanelEffect.isAddCall text) + 1 ∧
    (run ar lr p [(t1, .drop text),
        (t2, .message (.PROCESS_DRAGGED_TEXT (some text) sourceUrl))]).log.countP
          (PanelEffect.isAddRequest text)
      ≤ p.log.countP (PanelEffect.isAddRequest text) + 1 := by
  obtain ⟨hf1, hf2, hf3⟩ := fireTimers_frame t1 p
  -- the state in which the drop calls `addTextToCabinet`
  obtain ⟨ha1, ha2, ha3, rest, hlog, hcall, hreq⟩ :=
    addText_frame text (some "Drag & Drop") none ar lr
      { fireTimers t1 p with dropProcessedRecently := true
                             timers := (fireTimers t1 p).timers ++ [t1 + 500] }
  have hdrop : onDrop t1 text ar lr (fireTimers t1 p)
      = addTextToCabinet text (some "Drag & Drop") none ar lr
          { fireTimers t1 p with dropProcessedRecently := true
                                 timers := (fireTimers t1 p).timers ++ [t1 + 500] } := by
    unfold onDrop
    simp [hf1, hsel, truthyStr, hD, htext]
  have hpending : ∀ due ∈ (onDrop t1 text ar lr (fireTimers t1 p)).timers, t2 < due := by
    intro due hdue
    rw [hdrop, ha3] at hdue
    simp only [List.mem_append, List.mem_singleton] at hdue
    rcases hdue with hdue | hdue
    · obtain ⟨hmem, hlt⟩ := hf3 due hdue
      rcases htimers due hmem with h | h
      · omega
      · exact h
    · omega
  have hflag : (onDrop t1 text ar lr (fireTimers t1 p)).dropProcessedRecently = true := by
    rw [hdrop, ha2]
  have hrun : run ar lr p [(t1, .drop text),
      (t2, .message (.PROCESS_DRAGGED_TEXT (some text) sourceUrl))]
      = onDrop t1 text ar lr (fireTimers t1 p) := by
    simp only [run, List.foldl, step]
    rw [fireTimers_of_pending t2 _ hpending]
    unfold onMessage
    simp [hflag]
  rw [hrun, hdrop, hlog, hf2]
  constructor
  · simp [List.countP_append, List.countP_cons, hcall, PanelEffect.isAddCall]
  · simp only [List.countP_append, List.countP_cons, PanelEffect.isAddRequest]
    simp
    omega

/-- Witness of C9: a drop at time 1000 and the forwarded message 120 ms later. -/
theorem C9_drop_then_message_once_witness :
    (run (some okReply) (some okReply) (notesPanel notesStorage)
        [(1000, .drop "a dragged sentence"),
         (1120, .message (.PROCESS_DRAGGED_TEXT (some "a dragged sentence")
            "https://example.org/page"))]).log.countP
          (PanelEffect.isAddCall "a dragged sentence")
      = (notesPanel notesStorage).log.countP (PanelEffect.isAddCall "a dragged sentence") + 1 ∧
    (run (some okReply) (some okReply) (notesPanel notesStorage)
        [(1000, .drop "a dragged sentence"),
         (1120, .message (.PROCESS_DRAGGED_TEXT (some "a dragged sentence")
            "https://example.org/page"))]).log.countP
          (PanelEffect.isAddRequest "a dragged sentence")
      ≤ (notesPanel notesStorage).log.countP
          (PanelEffect.isAddRequest "a dragged sentence") + 1 :=
  C9_drop_then_message_once (notesPanel notesStorage) "notes" "a dragged sentence"
    "https://example.org/page" 1000 1120 (some okReply) (some okReply)
    rfl (by decide) (by decide) (by decide) (by decide) (by decide)

/-- Counterexample to C9 as stated: when the forwarded message is handled first
and the local drop of the same payload 100 ms later, both within 500 ms of each
other, `addTextToCabinet` is invoked twice and two add requests are issued. -/
theorem C9_counterexample :
    (notesPanel notesStorage).selectedCabinet = some "notes" ∧
    (notesPanel notesStorage).log.countP (PanelEffect.isAddCall "a dragged sentence") = 0 ∧
    (run (some okReply) (some okReply) (notesPanel notesStorage)
        [(1000, .message (.PROCESS_DRAGGED_TEXT (some "a dragged sentence")
            "https://example.org/page")),
         (1100, .drop "a dragged sentence")]).log.countP
          (PanelEffect.isAddCall "a dragged sentence") = 2 ∧
    (run (some okReply) (some okReply) (notesPanel notesStorage)
        [(1000, .message (.PROCESS_DRAGGED_TEXT (some "a dragged sentence")
            "https://example.org/page")),
         (1100, .drop "a dragged sentence")]).log.countP
          (PanelEffect.isAddRequest "a dragged sentence") = 2 := by
  decide

/-! ## Forwarded drag and drop in the panel (C11) -/

/-- The two shapes of what `addTextToCabinet` appends to the log: the marker
and one error, or the marker, the add request and what follows the reply. -/
theorem addText_log_cases (T : String) (u c : Option String) (ar lr : Option Reply)
    (p : Panel) :
    (∃ m, (addTextToCabinet T u c ar lr p).log
        = p.log ++ [.addTextToCabinetCalled T u c, .showMessage m .error]) ∨
    (∃ target, (addTextToCabinet T u c ar lr p).log
        = p.log ++ [.addTextToCabinetCalled T u c,
            .fetch (.addToCabinet target T (u.getD "unknown"))] ++ afterAdd target ar lr) := by
  unfold addTextToCabinet
  simp only []
  split
  · exact Or.inl ⟨"No cabinet selected", by simp [showMessage]⟩
  · rename_i target _
    split_ifs
    · exact Or.inl ⟨"No cabinet selected", by simp [showMessage]⟩
    · exact Or.inl ⟨textTooShort p.settings.minTextLength, by simp [showMessage]⟩
    · exact Or.inl ⟨textTooLong p.settings.maxTextLength, by simp [showMessage]⟩
    · refine Or.inr ⟨target, ?_⟩
      cases ar with
      | none => simp [showMessage, afterAdd]
      | some r =>
          by_cases hr : (r.ok && r.message) = true
          · cases lr with
            | none => simp [hr, loadCabinets, showMessage, afterAdd]
            | some l =>
                by_cases hl : l.success = true <;>
                  simp [hr, hl, loadCabinets, showMessage, afterAdd]
          · simp [hr, showMessage, afterAdd]

theorem afterAdd_no_info (target : String) (ar lr : Option Reply) :
    ∀ e ∈ afterAdd target ar lr, e.isInfoMessage = false := by
  unfold afterAdd
  cases ar with
  | none => simp [PanelEffect.isInfoMessage]
  | some r =>
      by_cases hr : (r.ok && r.message) = true
      · cases lr with
        | none => simp [hr, PanelEffect.isInfoMessage]
        | some l => by_cases hl : l.success = true <;> simp [hr, hl, PanelEffect.isInfoMessage]
      · simp [hr, PanelEffect.isInfoMessage]

/-- No call of `addTextToCabinet` shows an informational message. -/
theorem addText_no_info (T : String) (u c : Option String) (ar lr : Option Reply) (p : Panel) :
    ∃ rest, (addTextToCabinet T u c ar lr p).log = p.log ++ rest ∧
      ∀ e ∈ rest, e.isInfoMessage = false := by
  rcases addText_log_cases T u c ar lr p with ⟨m, h⟩ | ⟨target, h⟩
  · exact ⟨_, h, by simp [PanelEffect.isInfoMessage]⟩
  · refine ⟨[.addTextToCabinetCalled T u c,
        .fetch (.addToCabinet target T (u.getD "unknown"))] ++ afterAdd target ar lr,
      by rw [h, List.append_assoc], ?_⟩
    intro e he
    rcases List.mem_append.mp he with h1 | h2
    · simp at h1
      rcases h1 with h1 | h1 <;> simp [h1, PanelEffect.isInfoMessage]
    · exact afterAdd_no_info target ar lr e h2

/-- The verdicts of the length check of `addTextToCabinet` under integer bounds. -/
theorem addText_verdicts (T D : String) (u c : Option String) (ar lr : Option Reply)
    (p : Panel) (lo hi : Int) (hD : D ≠ "")
    (hp : (if truthyStr c then c else p.selectedCabinet) = some D)
    (hset : p.settings = ⟨.int lo, .int hi⟩) :
    ((addTextToCabinet T u c ar lr p).log
        = p.log ++ [.addTextToCabinetCalled T u c, .showMessage (textTooShort (.int lo)) .error]
      ↔ (jsLength T : Int) < lo) ∧
    ((addTextToCabinet T u c ar lr p).log
        = p.log ++ [.addTextToCabinetCalled T u c, .showMessage (textTooLong (.int hi)) .error]
      ↔ lo ≤ (jsLength T : Int) ∧ (jsLength T : Int) > hi) ∧
    ((∃ rest, (addTextToCabinet T u c ar lr p).log
        = p.log ++ [.addTextToCabinetCalled T u c,
            .fetch (.addToCabinet D T (u.getD "unknown"))] ++ rest)
      ↔ lo ≤ (jsLength T : Int) ∧ (jsLength T : Int) ≤ hi) := by
  have hne2 := textTooShort_ne_textTooLong (.int lo) (.int hi)
  by_cases h1 : (jsLength T : Int) < lo
  · rw [addText_tooShort T D u c ar lr p lo hi hD hp hset h1]
    refine ⟨by simp [h1], ?_, ?_⟩
    · simp [hne2]; intro h; omega
    · simp; intro h; omega
  · by_cases h2 : hi < (jsLength T : Int)
    · rw [addText_tooLong T D u c ar lr p lo hi hD hp hset (not_lt.mp h1) h2]
      refine ⟨by simp [h1, hne2.symm], ?_, ?_⟩
      · simp [h2]; omega
      · simp; intro h; omega
    · rw [addText_accepted T D u c ar lr p lo hi hD hp hset (not_lt.mp h1) (not_lt.mp h2)]
      refine ⟨by simp [h1], ?_, ?_⟩
      · simp; intro h; omega
      · constructor
        · intro _; omega
        · intro _; exact ⟨afterAdd D ar lr, rfl⟩

/-- The `PROCESS_DRAGGED_TEXT` case of the panel's listener: with no destination
selected and no drop just processed it only shows an error; it never shows an
informational message, and the worker's forwarding never sends the prompt; with
a destination selected and a non-empty text it is a call of `addTextToCabinet`,
whose tests against integer `this.settings` decide as stated. -/
theorem processDraggedText_cases (p : Panel) (text : Option String) (sourceUrl : String)
    (ar lr : Option Reply) :
    (p.dropProcessedRecently = false → truthyStr p.selectedCabinet = false →
      onMessage (.PROCESS_DRAGGED_TEXT text sourceUrl) ar lr p
        = showMessage "Please select a cabinet first" .error p ∧
      (onMessage (.PROCESS_DRAGGED_TEXT text sourceUrl) ar lr p).log
        = p.log ++ [.showMessage "Please select a cabinet first" .error]) ∧
    (∃ rest, (onMessage (.PROCESS_DRAGGED_TEXT text sourceUrl) ar lr p).log = p.log ++ rest ∧
      ∀ e ∈ rest, e.isInfoMessage = false) ∧
    (∀ senderTab, ∀ m ∈ sentMessages (runtimeOnMessage (.DRAG_DROP_TEXT text) senderTab),
      m.isPrompt = false) ∧
    (∀ (D t : String) (lo hi : Int), p.dropProcessedRecently = false →
      p.selectedCabinet = some D → D ≠ "" → text = some t → t ≠ "" →
      p.settings = ⟨.int lo, .int hi⟩ →
      onMessage (.PROCESS_DRAGGED_TEXT text sourceUrl) ar lr p
        = addTextToCabinet t (some sourceUrl) none ar lr p ∧
      (∀ u, onMessage (.ADD_TEXT_TO_CABINET D t u) ar lr p
        = addTextToCabinet t u (some D) ar lr p) ∧
      ((onMessage (.PROCESS_DRAGGED_TEXT text sourceUrl) ar lr p).log
          = p.log ++ [.addTextToCabinetCalled t (some sourceUrl) none,
              .showMessage (textTooShort (.int lo)) .error]
        ↔ (jsLength t : Int) < lo) ∧
      ((onMessage (.PROCESS_DRAGGED_TEXT text sourceUrl) ar lr p).log
          = p.log ++ [.addTextToCabinetCalled t (some sourceUrl) none,
              .showMessage (textTooLong (.int hi)) .error]
        ↔ lo ≤ (jsLength t : Int) ∧ (jsLength t : Int) > hi) ∧
      ((∃ rest, (onMessage (.PROCESS_DRAGGED_TEXT text sourceUrl) ar lr p).log
          = p.log ++ [.addTextToCabinetCalled t (some sourceUrl) none,
              .fetch (.addToCabinet D t sourceUrl)] ++ rest)
        ↔ lo ≤ (jsLength t : Int) ∧ (jsLength t : Int) ≤ hi)) := by
  refine ⟨?_, ?_, ?_, ?_⟩
  · intro hflag hsel
    have h : onMessage (.PROCESS_DRAGGED_TEXT text sourceUrl) ar lr p
        = showMessage "Please select a cabinet first" .error p := by
      unfold onMessage
      cases text <;> simp [hflag, hsel]
    rw [h]
    exact ⟨rfl, rfl⟩
  · unfold onMessage
    by_cases hflag : p.dropProcessedRecently = true
    · exact ⟨[], by simp [hflag], by simp⟩
    · simp only [hflag, if_false]
      by_cases hsel : truthyStr p.selectedCabinet = true
      · cases text with
        | none => exact ⟨[], by simp [hsel], by simp⟩
        | some t =>
            by_cases ht : t = ""
            · exact ⟨[], by simp [hsel, ht], by simp⟩
            · have hne : (t != "") = true := by simpa using ht
              simp only [hsel, hne, Bool.and_self, if_true, Bool.false_eq_true, if_false]
              exact addText_no_info t (some sourceUrl) none ar lr p
      · refine ⟨[.showMessage "Please select a cabinet first" .error], ?_,
          by simp [PanelEffect.isInfoMessage]⟩
        cases text <;> simp [hsel, showMessage]
  · intro senderTab m hm
    simp [runtimeOnMessage, sentMessages, Effect.message] at hm
    subst hm
    rfl
  · intro D t lo hi hflag hsel hD htext ht hset
    have htruthy : truthyStr p.selectedCabinet = true := by simp [hsel, truthyStr, hD]
    have h : onMessage (.PROCESS_DRAGGED_TEXT text sourceUrl) ar lr p
        = addTextToCabinet t (some sourceUrl) none ar lr p := by
      unfold onMessage
      simp [hflag, htext, htruthy, ht]
    have hp : (if truthyStr (none : Option String) then none else p.selectedCabinet) = some D := by
      simp [truthyStr, hsel]
    rw [h]
    exact ⟨rfl, fun _ => rfl,
      addText_verdicts t D (some sourceUrl) none ar lr p lo hi hD hp hset⟩

/-- C11, evaluated where the code departs from it: after the fields `0` and
`5000` were saved, with cabinet `notes` selected, the forwarded dragged text
`hello` is accepted by the panel (the add request is issued), while the
context-menu path refuses the same text in the worker (too short against
`0 || 10`): the two paths do not apply the same length validation. -/
theorem C11_failing_input :
    zeroMinPanel.selectedCabinet = some "notes" ∧
    zeroMinPanel.dropProcessedRecently = false ∧
    zeroMinPanel.settings = ⟨.int 0, .int 5000⟩ ∧
    (onMessage (.PROCESS_DRAGGED_TEXT (some "hello") "https://example.org/page")
        (some okReply) (some okReply) zeroMinPanel).log
      = zeroMinPanel.log ++
          [.addTextToCabinetCalled "hello" (some "https://example.org/page") none,
           .fetch (.addToCabinet "notes" "hello" "https://example.org/page"),
           .showMessage "Added text to \"notes\"" .success,
           .fetch .listCabinets] ∧
    sentMessages (contextMenusOnClicked zeroMinPanel.storage
        ⟨"add-to-cabinet", some "hello"⟩ pageTab)
      = [.SHOW_ERROR "Selected text is too short (minimum 10 characters)"] := by
  decide

/-! ## Missing selection text (C12) -/

/-- C12 (amended).  With a destination selected, a click whose selection text
is missing makes the listener read the length of the missing value, which
raises a `TypeError`: no message is sent, neither `SHOW_ERROR` nor
`ADD_TEXT_TO_CABINET`. -/
theorem C12_missing_text_raises (st : Storage) (tab : Tab) (D : String)
    (hD : D ≠ "") (hst : st.selectedCabinet = some D) :
    contextMenusOnClicked st ⟨"add-to-cabinet", none⟩ tab = [.typeError] ∧
    sentMessages (contextMenusOnClicked st ⟨"add-to-cabinet", none⟩ tab) = [] := by
  have h : contextMenusOnClicked st ⟨"add-to-cabinet", none⟩ tab = [.typeError] := by
    unfold contextMenusOnClicked
    simp [hst, hD]
  rw [h]
  exact ⟨rfl, rfl⟩

/-- Witness of C12: destination `notes`, bounds 10 and 5000, no selection text. -/
theorem C12_missing_text_raises_witness :
    contextMenusOnClicked notesStorage ⟨"add-to-cabinet", none⟩ pageTab = [.typeError] ∧
    sentMessages (contextMenusOnClicked notesStorage ⟨"add-to-cabinet", none⟩ pageTab) = [] :=
  C12_missing_text_raises notesStorage pageTab "notes" (by decide) rfl

/-- Counterexample to C12 as stated: with destination `notes` selected and the
selection text missing, the listener ends with a `TypeError` and sends no
too-short error. -/
theorem C12_counterexample :
    contextMenusOnClicked notesStorage ⟨"add-to-cabinet", none⟩ pageTab = [.typeError] ∧
    contextMenusOnClicked notesStorage ⟨"add-to-cabinet", none⟩ pageTab
      ≠ [.sendMessage (.SHOW_ERROR (tooShortMessage (minLength notesStorage)))] ∧
    ∀ m ∈ sentMessages (contextMenusOnClicked notesStorage ⟨"add-to-cabinet", none⟩ pageTab),
      m.isError = false := by
  decide

/-! ## The selection tracker of the content script (C13) -/

/-- Each `DRAG_DROP_TEXT` consumes a set dragging flag, and only `dragstart`
sets it: messages sent plus the final flag are bounded by the `dragstart`
events plus the initial flag. -/
theorem contentRun_emissions (events : List PageEvent) :
    ∀ s : Tracker,
      (contentRun s events).2.countP ContentEffect.isDragDrop
          + (if (contentRun s events).1.isDragging then 1 else 0)
        ≤ events.countP PageEvent.isDragstart + (if s.isDragging then 1 else 0) := by
  induction events with
  | nil => intro s; simp [contentRun]
  | cons e es ih =>
      intro s
      have h := ih (contentStep s e).1
      simp only [contentRun, List.countP_append, List.countP_cons]
      cases e with
      | mouseup sel =>
          simp only [contentStep, onMouseup, PageEvent.isDragstart] at h ⊢
          simpa using h
      | dragstart =>
          simp only [contentStep, onDragstart, PageEvent.isDragstart] at h ⊢
          by_cases hs : (s.selectedText != "") = true
          · simp only [hs, if_true] at h ⊢
            simp [ContentEffect.isDragDrop] at h ⊢
            split_ifs at h ⊢ <;> omega
          · simp only [hs, if_false] at h ⊢
            simp at h ⊢
            split_ifs at h ⊢ <;> omega
      | dragend =>
          simp only [contentStep, onDragend, PageEvent.isDragstart] at h ⊢
          by_cases hs : (s.isDragging && s.selectedText != "") = true
          · have hd : s.isDragging = true := by
              simp only [Bool.and_eq_true] at hs
              exact hs.1
            simp only [hs, if_true] at h ⊢
            simp [ContentEffect.isDragDrop, hd] at h ⊢
            omega
          · simp only [hs, if_false] at h ⊢
            simpa using h

/-- C13.  A `dragstart` with a non-empty selection sets the dragging flag; a
`dragend` emits `DRAG_DROP_TEXT` with the current selection exactly when the
flag is set and the selection is non-empty, and then clears the flag
(otherwise it does nothing); so the messages emitted never outnumber the
`dragstart` events, and one `dragstart` followed by any number of `dragend`
events emits at most one message. -/
theorem C13_selection_tracker (s : Tracker) (events : List PageEvent) (n : Nat) :
    (s.selectedText ≠ "" → (onDragstart s).1.isDragging = true ∧
      (onDragstart s).2 = [.setData s.selectedText]) ∧
    ((onDragend s).2 = [.sendMessage (.DRAG_DROP_TEXT (some s.selectedText))]
      ↔ (s.isDragging = true ∧ s.selectedText ≠ "")) ∧
    ((s.isDragging = true ∧ s.selectedText ≠ "") → (onDragend s).1.isDragging = false) ∧
    (¬ (s.isDragging = true ∧ s.selectedText ≠ "") → onDragend s = (s, [])) ∧
    (s.isDragging = false →
      (contentRun s events).2.countP ContentEffect.isDragDrop
        ≤ events.countP PageEvent.isDragstart) ∧
    (s.isDragging = false →
      (contentRun s (.dragstart :: List.replicate n .dragend)).2.countP
        ContentEffect.isDragDrop ≤ 1) := by
  refine ⟨?_, ?_, ?_, ?_, ?_, ?_⟩
  · intro h
    simp [onDragstart, h]
  · unfold onDragend
    by_cases hs : s.isDragging = true ∧ s.selectedText ≠ ""
    · simp [hs.1, hs.2, hs]
    · have : ¬ ((s.isDragging && s.selectedText != "") = true) := by
        simpa [Bool.and_eq_true] using hs
      simp [this, hs]
  · intro h
    simp [onDragend, h.1, h.2]
  · intro h
    have : ¬ ((s.isDragging && s.selectedText != "") = true) := by
      simpa [Bool.and_eq_true] using h
    simp [onDragend, this]
  · intro h
    have := contentRun_emissions events s
    simp only [h, Bool.false_eq_true, if_false, Nat.add_zero] at this
    omega
  · intro h
    have := contentRun_emissions (.dragstart :: List.replicate n .dragend) s
    have hc : (PageEvent.dragstart :: List.replicate n PageEvent.dragend).countP
        PageEvent.isDragstart = 1 := by
      simp [List.countP_cons, PageEvent.isDragstart, List.countP_replicate]
    simp only [h, Bool.false_eq_true, if_false, Nat.add_zero, hc] at this
    omega

/-- Witness of C13: a selection is made, dragged, and the drag ends three
times. -/
theorem C13_selection_tracker_witness :
    (contentRun (onMouseup "  a dragged sentence " Tracker.initial).1
      (.dragstart :: List.replicate 3 .dragend)).2.countP ContentEffect.isDragDrop ≤ 1 :=
  (C13_selection_tracker (onMouseup "  a dragged sentence " Tracker.initial).1 [] 3).2.2.2.2.2
    rfl

/-! ## Score shown for a search result (C14) -/

/-- The `||` chain picks the first truthy field in the order `relevance_score`,
`score`, `confidence`, and the number 0 when none is truthy. -/
theorem scoreOf_first_truthy (r : SearchResult) :
    (r.relevance_score.truthy = true → scoreOf r = r.relevance_score) ∧
    (r.relevance_score.truthy = false → r.score.truthy = true → scoreOf r = r.score) ∧
    (r.relevance_score.truthy = false → r.score.truthy = false →
      r.confidence.truthy = true → scoreOf r = r.confidence) ∧
    (r.relevance_score.truthy = false → r.score.truthy = false →
      r.confidence.truthy = false → scoreOf r = .num (.fin 0)) := by
  refine ⟨?_, ?_, ?_, ?_⟩
  · intro h
    simp [scoreOf, h]
  · intro h1 h2
    simp [scoreOf, h1, h2]
  · intro h1 h2 h3
    simp [scoreOf, h1, h2, h3]
  · intro h1 h2 h3
    simp [scoreOf, h1, h2, h3]

/-- When the chosen score is a finite number `v`, the text is
`(v * 100).toFixed(1)` for `v <= 1` and `v.toFixed(1)` for `v > 1`, with the
product and the formatting as the double operations give them. -/
theorem resultScoreText_of_finite (ops : DoubleOps) (r : SearchResult) (v : ℚ)
    (h : scoreOf r = .num (.fin v)) :
    (v ≤ 1 → resultScoreText ops r = some (ops.toFixed1 (ops.mul100 (.fin v)))) ∧
    (v > 1 → resultScoreText ops r = some (ops.toFixed1 (.fin v))) := by
  constructor
  · intro hv
    simp [resultScoreText, h, needsReset, ScoreValue.toNumber, JSDouble.isNaN, JSDouble.le1, hv]
  · intro hv
    simp [resultScoreText, h, needsReset, ScoreValue.toNumber, JSDouble.isNaN, JSDouble.le1,
      not_le.mpr hv]

/-- C14, evaluated where the code departs from it: for a result whose
`relevance_score` is the string `85` the chosen score stays that string (it is
truthy and `isNaN` is false for it), it is greater than 1, and
`percentage.toFixed(1)` raises a `TypeError`, so nothing is shown; the number
85 is shown as itself.  This holds whatever the double operations are. -/
theorem C14_failing_input (ops : DoubleOps) :
    stringToNumber ops "85" = .fin 85 ∧
    (stringToNumber ops "85").le1 = false ∧
    resultScoreText ops stringScoreResult = none ∧
    resultScoreText ops numberScoreResult = some (ops.toFixed1 (.fin 85)) := by
  have h85 : stringToNumber ops "85" = .fin 85 := by
    simp [stringToNumber, readAllDigits]
  have hle : (JSDouble.fin 85).le1 = false := by
    simp [JSDouble.le1]
  refine ⟨h85, by rw [h85]; exact hle, ?_, ?_⟩
  · simp [resultScoreText, stringScoreResult, scoreOf, ScoreValue.truthy, needsReset,
      ScoreValue.toNumber, h85, JSDouble.isNaN, hle]
  · simp [resultScoreText, numberScoreResult, scoreOf, ScoreValue.truthy, needsReset,
      ScoreValue.toNumber, JSDouble.isNaN, hle]

/-! ## Outcomes of `ApiClient.request` (C15) -/

theorem httpError_ne_timeout (status : Nat) (statusText : String) :
    (⟨"Error", "HTTP " ++ toString status ++ ": " ++ statusText⟩ : JSError)
      ≠ ⟨"Error", "Request timeout"⟩ := by
  intro h
  have hm : "HTTP " ++ toString status ++ ": " ++ statusText = "Request timeout" ++ "" :=
    congrArg JSError.message h
  rw [String.append_assoc, String.append_assoc] at hm
  exact append_ne_of_take_ne 1 _ _ _ _ (by decide) (by decide) (by decide) hm

/-- C15 (amended).  `request` maps each outcome of the underlying `fetch` to a
distinct result: a rejection named `AbortError` (the abort by the timeout)
fails with `Error('Request timeout')`; any other rejection is rethrown
unchanged; a non-success status fails with an error, different from the
timeout error, whose message is `HTTP <status>: <statusText>` (status code and
status text; the body is not read); a success status with a JSON body returns
the parsed body. -/
theorem C15_request_outcomes (apiUrl : Option String)
    (fetch : String → Except JSError Response) (endpoint : String) :
    (∀ e, fetch (requestUrl apiUrl endpoint) = .error e → e.name = "AbortError" →
      ApiClient.request apiUrl fetch endpoint = .error ⟨"Error", "Request timeout"⟩) ∧
    (∀ e, fetch (requestUrl apiUrl endpoint) = .error e → e.name ≠ "AbortError" →
      ApiClient.request apiUrl fetch endpoint = .error e) ∧
    (∀ r, fetch (requestUrl apiUrl endpoint) = .ok r → r.ok = false →
      ApiClient.request apiUrl fetch endpoint
        = .error ⟨"Error", "HTTP " ++ toString r.status ++ ": " ++ r.statusText⟩ ∧
      ApiClient.request apiUrl fetch endpoint ≠ .error ⟨"Error", "Request timeout"⟩ ∧
      containsText ("HTTP " ++ toString r.status ++ ": " ++ r.statusText) (toString r.status) ∧
      containsText ("HTTP " ++ toString r.status ++ ": " ++ r.statusText) r.statusText) ∧
    (∀ r v, fetch (requestUrl apiUrl endpoint) = .ok r → r.ok = true → r.json = .ok v →
      ApiClient.request apiUrl fetch endpoint = .ok v) := by
  refine ⟨?_, ?_, ?_, ?_⟩
  · intro e h hn
    simp [ApiClient.request, h, requestCatch, hn]
  · intro e h hn
    simp [ApiClient.request, h, requestCatch, hn]
  · intro r h hok
    have hres : ApiClient.request apiUrl fetch endpoint
        = .error ⟨"Error", "HTTP " ++ toString r.status ++ ": " ++ r.statusText⟩ := by
      simp [ApiClient.request, h, hok, requestCatch]
    refine ⟨hres, ?_, ?_, ?_⟩
    · rw [hres]
      intro hc
      exact httpError_ne_timeout r.status r.statusText (Except.error.inj hc)
    · exact ⟨"HTTP ".data, (": " ++ r.statusText).data, by simp [String.data_append]⟩
    · exact ⟨("HTTP " ++ toString r.status ++ ": ").data, [], by simp [String.data_append]⟩
  · intro r v h hok hj
    simp [ApiClient.request, h, hok, hj]

/-- Witness of C15: a reply with status 200 and a JSON body is returned. -/
theorem C15_request_outcomes_witness :
    ApiClient.request none okFetch "/health" = .ok ⟨none, "{}"⟩ :=
  (C15_request_outcomes none okFetch "/health").2.2.2 ⟨200, "OK", .ok ⟨none, "{}"⟩⟩ ⟨none, "{}"⟩
    rfl rfl rfl

/-- Counterexample to C15 as stated: the server answers 404 with the detail
`Cabinet archive does not exist`; the error thrown is `HTTP 404: Not Found`,
which does not include that detail. -/
theorem C15_counterexample :
    ApiClient.request none notFoundFetch "/delete_cabinet/archive"
      = .error ⟨"Error", "HTTP 404: Not Found"⟩ ∧
    ¬ containsText "HTTP 404: Not Found" "Cabinet archive does not exist" :=
  ⟨rfl, by decide⟩

/-! ## The bounds held by the panel (C16) -/

theorem saveSettings_isOrdered (minValue maxValue : String) (a b : Int) (p : Panel)
    (hmin : parseInt minValue = .int a) (hmax : parseInt maxValue = .int b)
    (hp : p.settings.isOrdered = true) :
    (saveSettings minValue maxValue p).settings.isOrdered = true := by
  unfold saveSettings
  simp only [hmin, hmax, JSNum.ge]
  by_cases h : a ≥ b
  · simp [h, showMessage, hp]
  · simp [h, showMessage, Settings.isOrdered]
    omega

/-- The guard of `saveSettings` on integer fields: from the constructor's
defaults, and from any panel whose bounds are integers with minimum below
maximum, every sequence of `saveSettings` calls whose two fields parse to
integers leaves integer bounds with `minTextLength < maxTextLength`; and
`loadSettings` yields the stored values after the `||` fallback, which are
non-zero integers. -/
theorem saveSettings_sequence_isOrdered (p : Panel) (storage : Storage) (calls : List (String × String))
    (hp : p.settings.isOrdered = true)
    (hcalls : ∀ c ∈ calls, (∃ a, parseInt c.1 = .int a) ∧ (∃ b, parseInt c.2 = .int b)) :
    (Panel.new storage).settings.isOrdered = true ∧
    (calls.foldl (fun q c => saveSettings c.1 c.2 q) p).settings.isOrdered = true ∧
    (∃ a b, (loadSettings p).settings = ⟨.int a, .int b⟩ ∧ a ≠ 0 ∧ b ≠ 0) := by
  refine ⟨rfl, ?_, ?_⟩
  · induction calls generalizing p with
    | nil => simpa using hp
    | cons c cs ih =>
        obtain ⟨⟨a, ha⟩, ⟨b, hb⟩⟩ := hcalls c (List.mem_cons_self _ _)
        simp only [List.foldl_cons]
        exact ih (saveSettings c.1 c.2 p) (saveSettings_isOrdered c.1 c.2 a b p ha hb hp)
          (fun c' hc' => hcalls c' (List.mem_cons_of_mem _ hc'))
  · refine ⟨orDefault p.storage.minTextLength 10, orDefault p.storage.maxTextLength 5000,
      rfl, ?_, ?_⟩
    · unfold orDefault
      split
      · split_ifs with h
        · decide
        · exact h
      · decide
    · unfold orDefault
      split
      · split_ifs with h
        · decide
        · exact h
      · decide

/-- C16, evaluated where the code departs from it.  The fields `0` and `5` are
accepted by `saveSettings` (bounds 0 and 5, minimum not positive); a panel
opened anew over that storage loads `0 || 10` and 5, so its bounds are 10 and 5
with the minimum above the maximum.  An empty minimum field with the maximum
`16` is accepted as well and leaves `NaN` as the minimum. -/
theorem C16_failing_input :
    smallMaxPanel.settings = ⟨.int 0, .int 5⟩ ∧
    smallMaxPanel.storage.minTextLength = some (.int 0) ∧
    smallMaxPanel.storage.maxTextLength = some (.int 5) ∧
    reloadedPanel.settings = ⟨.int 10, .int 5⟩ ∧
    reloadedPanel.settings.isPositiveOrdered = false ∧
    emptyMinPanel.settings = ⟨.nan, .int 16⟩ ∧
    emptyMinPanel.settings.isPositiveOrdered = false := by
  decide

/-! ## Source locator of forwarded and added text (C17) -/

/-- C17.  For a `DRAG_DROP_TEXT` message the worker forwards exactly one
`PROCESS_DRAGGED_TEXT` message with the same text, whose source is the sender
tab's URL when the sender has a (non-empty) one and `unknown` otherwise; and
`addTextToCabinet` called without a source URL either stops at an error or
requests the addition with `source_url` `unknown`. -/
theorem C17_source_locator (text : Option String) (senderTab : Option Tab) (T : String)
    (c : Option String) (ar lr : Option Reply) (p : Panel) :
    (∃ src, runtimeOnMessage (.DRAG_DROP_TEXT text) senderTab
        = [.sendMessage (.PROCESS_DRAGGED_TEXT text src)] ∧
      (∀ tab url, senderTab = some tab → tab.url = some url → url ≠ "" → src = url) ∧
      (senderTab = none → src = "unknown") ∧
      (∀ tab, senderTab = some tab → truthyStr tab.url = false → src = "unknown")) ∧
    ((∃ m, (addTextToCabinet T none c ar lr p).log
        = p.log ++ [.addTextToCabinetCalled T none c, .showMessage m .error]) ∨
     (∃ target, (addTextToCabinet T none c ar lr p).log
        = p.log ++ [.addTextToCabinetCalled T none c,
            .fetch (.addToCabinet target T "unknown")] ++ afterAdd target ar lr)) ∧
    (∀ (D : String) (lo hi : Int), D ≠ "" →
      (if truthyStr c then c else p.selectedCabinet) = some D →
      p.settings = ⟨.int lo, .int hi⟩ →
      lo ≤ (jsLength T : Int) → (jsLength T : Int) ≤ hi →
      (addTextToCabinet T none c ar lr p).log
        = p.log ++ [.addTextToCabinetCalled T none c,
            .fetch (.addToCabinet D T "unknown")] ++ afterAdd D ar lr) := by
  refine ⟨?_, ?_, ?_⟩
  · refine ⟨_, rfl, ?_, ?_, ?_⟩
    · intro tab url h1 h2 h3
      simp [h1, h2, truthyStr, h3]
    · intro h
      simp [h]
    · intro tab h1 h2
      simp [h1, h2]
  · exact addText_log_cases T none c ar lr p
  · intro D lo hi hD hp hset h1 h2
    exact addText_accepted T D none c ar lr p lo hi hD hp hset h1 h2

/-- Witness of C17: a text added without source URL to cabinet `notes`. -/
theorem C17_source_locator_witness :
    (addTextToCabinet "a dragged sentence" none none (some okReply) (some okReply)
        (notesPanel notesStorage)).log
      = (notesPanel notesStorage).log ++
          [.addTextToCabinetCalled "a dragged sentence" none none,
           .fetch (.addToCabinet "notes" "a dragged sentence" "unknown")] ++
          afterAdd "notes" (some okReply) (some okReply) :=
  (C17_source_locator none none "a dragged sentence" none (some okReply) (some okReply)
    (notesPanel notesStorage)).2.2 "notes" 10 5000 (by decide) (by decide) (by decide)
    (by decide) (by decide)

/-! ## Cache cleanup (C18) -/

/-- C18.  After `_cleanup`, for every cache, time `now` and maximum size `m`:
no entry has `expires <= now`, there are at most `m` entries, every entry kept
is an entry of the input, and every entry kept expires at least as late as
every unexpired entry that was dropped. -/
theorem C18_cleanup (now : Int) (m : Nat) (cache : Cache) :
    (∀ e ∈ CacheManager._cleanup now m cache, e.2.expires > now) ∧
    (CacheManager._cleanup now m cache).length ≤ m ∧
    (∀ e ∈ CacheManager._cleanup now m cache, e ∈ cache) ∧
    (∀ k ∈ CacheManager._cleanup now m cache, ∀ d ∈ cache, d.2.expires > now →
      d ∉ CacheManager._cleanup now m cache → d.2.expires ≤ k.2.expires) := by
  haveI : IsTotal (String × CacheItem) (fun a b => b.2.expires ≤ a.2.expires) :=
    ⟨fun a b => le_total b.2.expires a.2.expires⟩
  haveI : IsTrans (String × CacheItem) (fun a b => b.2.expires ≤ a.2.expires) :=
    ⟨fun _ _ _ h1 h2 => le_trans h2 h1⟩
  unfold CacheManager._cleanup
  simp only []
  split_ifs with hsize
  · have hmem : ∀ e, e ∈ (List.insertionSort (fun a b : String × CacheItem =>
          b.2.expires ≤ a.2.expires)
          (cache.filter (fun entry => decide (entry.2.expires > now)))).take m →
        e ∈ cache ∧ e.2.expires > now := by
      intro e he
      have h1 := (List.mem_insertionSort _).mp (List.mem_of_mem_take he)
      simpa using List.mem_filter.mp h1
    refine ⟨fun e he => (hmem e he).2, List.length_take_le _ _, fun e he => (hmem e he).1, ?_⟩
    intro k hk d hd hexp hnot
    have hsorted := List.sorted_insertionSort (fun a b : String × CacheItem =>
      b.2.expires ≤ a.2.expires) (cache.filter (fun entry => decide (entry.2.expires > now)))
    have hdv : d ∈ List.insertionSort (fun a b : String × CacheItem =>
        b.2.expires ≤ a.2.expires)
        (cache.filter (fun entry => decide (entry.2.expires > now))) :=
      (List.mem_insertionSort _).mpr (List.mem_filter.mpr ⟨hd, by simpa using hexp⟩)
    rw [← List.take_append_drop m (List.insertionSort _ _)] at hdv hsorted
    have hdrop := (List.mem_append.mp hdv).resolve_left hnot
    exact (List.pairwise_append.mp hsorted).2.2 k hk d hdrop
  · refine ⟨?_, by omega, ?_, ?_⟩
    · intro e he
      simpa using (List.mem_filter.mp he).2
    · intro e he
      exact (List.mem_filter.mp he).1
    · intro k _ d hd hexp hnot
      exact absurd (List.mem_filter.mpr ⟨hd, by simpa using hexp⟩) hnot

/-- Witness of C18: at time 1000 and with room for two entries, the expired `a`
and the earliest unexpired `b` are dropped; the kept `d` outlives `b`. -/
theorem C18_cleanup_witness :
    CacheManager._cleanup 1000 2 sampleCache = [("c", ⟨"vc", 3000⟩), ("d", ⟨"vd", 2000⟩)] ∧
    (1500 : Int) ≤ 2000 :=
  ⟨by decide,
   (C18_cleanup 1000 2 sampleCache).2.2.2 ("d", ⟨"vd", 2000⟩) (by decide)
     ("b", ⟨"vb", 1500⟩) (by decide) (by decide) (by decide)⟩

/-! ## Agreement of the two length checks after `saveSettings` (C19) -/

/-- For accepted fields that parse to non-zero integers the worker reads back
exactly the bounds the panel holds. -/
theorem bounds_agree_of_ne_zero (minValue maxValue : String) (a b : Int) (p : Panel)
    (hmin : parseInt minValue = .int a) (hmax : parseInt maxValue = .int b)
    (hab : a < b) (ha : a ≠ 0) (hb : b ≠ 0) :
    (saveSettings minValue maxValue p).settings
      = ⟨.int (minLength (saveSettings minValue maxValue p).storage),
         .int (maxLength (saveSettings minValue maxValue p).storage)⟩ := by
  unfold saveSettings
  simp [hmin, hmax, JSNum.ge, not_le.mpr hab, showMessage, minLength, maxLength, orDefault,
    ha, hb]

/-- C19, evaluated where the code departs from it: the fields `0` and `5000`
are accepted and persisted by `saveSettings`; for the text `hello` the panel's
check (minimum 0) then issues the add request, while the worker's check on the
same storage (minimum `0 || 10`) answers that the text is too short. -/
theorem C19_failing_input :
    zeroMinPanel.settings = ⟨.int 0, .int 5000⟩ ∧
    zeroMinPanel.storage.minTextLength = some (.int 0) ∧
    zeroMinPanel.storage.maxTextLength = some (.int 5000) ∧
    (addTextToCabinet "hello" (some "https://example.org/page") none
        (some okReply) (some okReply) zeroMinPanel).log
      = zeroMinPanel.log ++
          [.addTextToCabinetCalled "hello" (some "https://example.org/page") none,
           .fetch (.addToCabinet "notes" "hello" "https://example.org/page"),
           .showMessage "Added text to \"notes\"" .success,
           .fetch .listCabinets] ∧
    minLength zeroMinPanel.storage = 10 ∧
    contextMenusOnClicked zeroMinPanel.storage ⟨"add-to-cabinet", some "hello"⟩ pageTab
      = [.sendMessage (.SHOW_ERROR "Selected text is too short (minimum 10 characters)")] := by
  decide

end ContextCaddy
